import Mathlib

/-!
# Handle registry and session lifecycle of `unimrcp_addon.cc`

A shallow embedding of the native signalling add-on
(`src/sidecar/signaling/native/unimrcp_addon.cc`): the handle registry
`g_handles`, the handle counter `g_nextHandle`, the engine reference count
`g_aprInitCount`, and the three exported operations `OpenSession`, `OnEvent`
and `CloseSession`, together with the engine callbacks `on_channel_add` and
`on_terminate_event` and the body of the worker thread started by `OnEvent`.

`on_message_receive` is cut short in the source (its body is not closed before
`on_terminate_event` begins) and is not embedded.

Both builds of the file are embedded: `Build.sdk = true` is the build with
`USE_UNIMRCP_SDK` defined, `Build.sdk = false` the stub build.

Threads are interleaved at the granularity of the critical sections guarded by
`g_mutex`: each operation and each callback is one atomic state transformer.
Everything the code does to the outside world (engine calls, thread start and
join, sink creation and release, consumer invocation) is recorded as a list of
`Effect`s in program order.
-/

namespace AudioHook

/-! ## JavaScript values crossing the N-API boundary -/

/-- The JavaScript values the add-on is called with. `number n` is the number
whose value is the non-negative integer `n`; `function id` is a callable with
identity `id`; `object fields` is a plain object with the listed own
properties. -/
inductive JsValue where
  | undefined : JsValue
  | null : JsValue
  | bool (b : Bool) : JsValue
  | number (n : Nat) : JsValue
  | string (s : String) : JsValue
  | object (fields : List (String × JsValue)) : JsValue
  | function (id : Nat) : JsValue

/-- `Napi::Value::IsObject()`: true for objects and for functions. -/
def JsValue.IsObject : JsValue → Bool
  | JsValue.object _ => true
  | JsValue.function _ => true
  | _ => false

/-- `Napi::Value::IsNumber()`. -/
def JsValue.IsNumber : JsValue → Bool
  | JsValue.number _ => true
  | _ => false

/-- `Napi::Value::IsFunction()`. -/
def JsValue.IsFunction : JsValue → Bool
  | JsValue.function _ => true
  | _ => false

/-- Width of `uint32_t`. -/
def UINT32 : Nat := 2 ^ 32

/-- `Napi::Number::Uint32Value()` of a value already known to be a number. -/
def JsValue.Uint32Value : JsValue → Nat
  | JsValue.number n => n % UINT32
  | _ => 0

/-- Own-property lookup in a property list. -/
def getField : List (String × JsValue) → String → JsValue
  | [], _ => JsValue.undefined
  | (k, v) :: rest, key => if k = key then v else getField rest key

/-- `Napi::Object::Get(key)`: an absent property reads as `undefined`. -/
def JsValue.Get : JsValue → String → JsValue
  | JsValue.object fields, key => getField fields key
  | _, _ => JsValue.undefined

/-- The two coercions of the JavaScript engine that `OpenSession` applies to the
option fields: `Napi::Value::ToString()` and `ToNumber().Uint32Value()`. They
belong to the engine, not to this file, and are a parameter of the embedding. -/
structure Coercions where
  ToString : JsValue → String
  ToUint32 : JsValue → Nat

/-- The coercions used to evaluate the concrete scenarios. They are the
ECMAScript ones on `undefined`, `null`, booleans, integer numbers below
`10 ^ 21` and, for `ToString`, strings. Every theorem that is not an evaluation
at a concrete input holds for all `Coercions`. -/
def jsCoercions : Coercions where
  ToString := fun v =>
    match v with
    | JsValue.undefined => "undefined"
    | JsValue.null => "null"
    | JsValue.bool true => "true"
    | JsValue.bool false => "false"
    | JsValue.number n => toString n
    | JsValue.string s => s
    | JsValue.object _ => "[object Object]"
    | JsValue.function _ => "function"
  ToUint32 := fun v =>
    match v with
    | JsValue.number n => n % UINT32
    | JsValue.bool true => 1
    | JsValue.string s => s.toNat?.getD 0 % UINT32
    | _ => 0

/-! ## Session records and the registry -/

/-- A `Napi::ThreadSafeFunction` bound to one consumer callback. `id` counts the
sinks created so far, `callback` is the identity of the JavaScript function. -/
structure Sink where
  id : Nat
  callback : Nat
deriving DecidableEq, Repr

/-- `struct HandleState`. `worker = none` is a `std::thread` that is not
joinable, `tsfn = none` an empty `ThreadSafeFunction`. The engine pointers are
recorded as null (`false`) or non-null (`true`); `appCtx` holds the `handleId`
stored in the `AppCtx` it points to. The fields after `tsfn` exist in the SDK
build only and keep their initial values in the stub build. -/
structure HandleState where
  running : Bool := false
  worker : Option Nat := none
  tsfn : Option Sink := none
  dirLayout : Bool := false
  client : Bool := false
  app : Bool := false
  session : Bool := false
  channel : Bool := false
  appCtx : Option Nat := none
  rip : String := ""
  rport : Nat := 0
  ptime : Nat := 0
  channelAdded : Bool := false
deriving DecidableEq, Repr

/-- `std::map<uint32_t, HandleState>` as an association list with one entry per
key. -/
abbrev Registry := List (Nat × HandleState)

/-- `g_handles.find(k)`; `none` is `g_handles.end()`. -/
def Registry.find : Registry → Nat → Option HandleState
  | [], _ => none
  | (k, v) :: m, h => if k = h then some v else Registry.find m h

/-- `g_handles[k]` read: the record at `k`, value-initialised when absent. -/
def Registry.index (m : Registry) (h : Nat) : HandleState :=
  (Registry.find m h).getD {}

/-- Write-back of the record at `k` (through `g_handles[k]` or an iterator). -/
def Registry.set : Registry → Nat → HandleState → Registry
  | [], h, v => [(h, v)]
  | (k, w) :: m, h, v => if k = h then (h, v) :: m else (k, w) :: Registry.set m h v

/-- `g_handles.erase(it)` for the entry with key `k`. -/
def Registry.erase : Registry → Nat → Registry
  | [], _ => []
  | (k, v) :: m, h => if k = h then Registry.erase m h else (k, v) :: Registry.erase m h

/-- The globals of the translation unit. `sinks` and `threads` count the
thread-safe functions and worker threads created so far and give each new one
its identity. -/
structure State where
  g_handles : Registry := []
  g_nextHandle : Nat := 1
  g_aprInitCount : Int := 0
  sinks : Nat := 0
  threads : Nat := 0
deriving DecidableEq, Repr

/-- The state at load time: empty registry, `g_nextHandle = 1`. -/
def State.init : State := {}

/-- Events handed to the consumer callback. -/
inductive Event where
  | result (text : String)
  | closed (reason : String)
deriving DecidableEq, Repr

/-- Actions on the outside world, in program order. -/
inductive Effect where
  | aprInit
  | aprTerminate
  | clientStart
  | ctxNew (handleId : Nat)
  | channelAddRequest (handleId : Nat)
  | sessionTerminate
  | sessionDestroy
  | clientShutdown
  | tsfnNew (sink : Sink)
  | tsfnRelease (sink : Sink)
  | threadStart (tid : Nat) (handleId : Nat)
  | threadJoin (tid : Nat)
  | ctxDelete (handleId : Nat)
  | consumerCall (sink : Sink) (ev : Event)
deriving DecidableEq, Repr

/-- The object `OpenSession` returns. -/
structure SessionResult where
  remoteIp : String
  remotePort : Nat
  payloadType : Nat
  handle : Nat
  ptimeMs : Nat
  localPort : Nat
deriving DecidableEq, Repr

/-- What a call hands back to JavaScript: a value, a thrown exception, or
`std::terminate` ending the process. -/
inductive Ret where
  | undefined
  | typeError (msg : String)
  | error (msg : String)
  | session (r : SessionResult)
  | terminate
deriving DecidableEq, Repr

/-- Result of one operation: new globals, returned value, effects. -/
structure Outcome where
  state : State
  ret : Ret
  effects : List Effect
deriving DecidableEq, Repr

/-! ## The engine as seen from the add-on -/

/-- One end of an RTP media descriptor (`mpf_rtp_media_descriptor_t`): `ip` is
empty when `ip.buf` is null or `ip.length` is zero; `port` and `ptime` are the
16-bit fields. -/
structure Media where
  ip : String
  port : Nat
  ptime : Nat
deriving DecidableEq, Repr

/-- `mpf_rtp_termination_descriptor_t`: the `audio.remote` and `audio.local`
pointers, `none` when null. -/
structure RtpDesc where
  remote : Option Media
  local_ : Option Media
deriving DecidableEq, Repr

/-- One invocation of `on_channel_add` by the engine thread: the `handleId` of
the `AppCtx` attached to the session (`none` for a null session object), the
channel pointer, whether `status` is `MRCP_SIG_STATUS_CODE_SUCCESS`, and what
`mrcp_application_rtp_descriptor_get(channel)` returns. -/
structure ChannelAdd where
  ctx : Option Nat
  channel : Bool
  success : Bool
  rtpDesc : Option RtpDesc
deriving DecidableEq, Repr

/-- What the engine does during one `OpenSession`: which of its constructors
return non-null, and the `on_channel_add` invocations its thread completes
before the negotiation wait of this call ends. -/
structure Engine where
  dirLayoutCreate : Bool
  clientCreate : Bool
  applicationCreate : Bool
  sessionCreate : Bool
  channelCreate : Bool
  callbacks : List ChannelAdd
deriving DecidableEq, Repr

/-- Build configuration and JavaScript engine. -/
structure Build where
  sdk : Bool
  co : Coercions

/-! ## Engine reference counting -/

/-- Two's-complement wrap of `std::atomic<int>` arithmetic. -/
def wrapInt32 (x : Int) : Int := (x + 2 ^ 31) % 2 ^ 32 - 2 ^ 31

/-- `SdkInitIfNeeded`: `apr_initialize` when the count is zero, then
`fetch_add(1)`. -/
def SdkInitIfNeeded (s : State) : State × List Effect :=
  ({ s with g_aprInitCount := wrapInt32 (s.g_aprInitCount + 1) },
   if s.g_aprInitCount = 0 then [Effect.aprInit] else [])

/-- `SdkTerminateIfNeeded`: when the count is positive, `fetch_sub(1)` and
`apr_terminate` once it reaches zero. -/
def SdkTerminateIfNeeded (s : State) : State × List Effect :=
  if 0 < s.g_aprInitCount then
    let cnt := wrapInt32 (s.g_aprInitCount - 1)
    ({ s with g_aprInitCount := cnt }, if cnt = 0 then [Effect.aprTerminate] else [])
  else (s, [])

/-! ## Engine callbacks -/

/-- Lines 122-127 of `on_channel_add`: copy the remote end of the descriptor. -/
def takeRemote (d : Option RtpDesc) (st : HandleState) : HandleState :=
  match d with
  | some desc =>
    match desc.remote with
    | some remote =>
      let st1 := if remote.ip ≠ "" then { st with rip := remote.ip } else st
      { st1 with rport := remote.port,
                 ptime := if remote.ptime ≠ 0 then remote.ptime else st1.ptime }
    | none => st
  | none => st

/-- Lines 128-133 of `on_channel_add`: fall back to the local end while the
port or the address is still missing. -/
def takeLocal (d : Option RtpDesc) (st : HandleState) : HandleState :=
  match d with
  | some desc =>
    match desc.local_ with
    | some loc =>
      if st.rport = 0 ∨ st.rip = "" then
        let st1 := if loc.ip ≠ "" then { st with rip := loc.ip } else st
        let st2 := if st1.rport = 0 then { st1 with rport := loc.port } else st1
        if st2.ptime = 0 ∧ loc.ptime ≠ 0 then { st2 with ptime := loc.ptime } else st2
      else st
    | none => st
  | none => st

/-- Line 134 of `on_channel_add`. -/
def defaultPtime (st : HandleState) : HandleState :=
  if st.ptime = 0 then { st with ptime := 20 } else st

/-- Lines 119-136 of `on_channel_add`: what the callback writes into the record
it found. -/
def channelAddRecord (ev : ChannelAdd) (st : HandleState) : HandleState :=
  let st1 := { st with channel := ev.channel }
  let st2 := if ev.success then defaultPtime (takeLocal ev.rtpDesc (takeRemote ev.rtpDesc st1))
             else st1
  { st2 with channelAdded := true }

/-- The engine callback `on_channel_add`, run under `g_mutex`. -/
def on_channel_add (ev : ChannelAdd) (s : State) : State :=
  match ev.ctx with
  | none => s
  | some handleId =>
    match s.g_handles.find handleId with
    | none => s
    | some st => { s with g_handles := s.g_handles.set handleId (channelAddRecord ev st) }

/-- The engine callback `on_terminate_event`: the consumer invocations it
makes. The sink is looked up under `g_mutex` through the correlator. -/
def on_terminate_event (ctx : Option Nat) (s : State) : List Effect :=
  match ctx with
  | none => []
  | some handleId =>
    match s.g_handles.find handleId with
    | none => []
    | some st =>
      match st.tsfn with
      | some sink => [Effect.consumerCall sink (Event.closed "terminated")]
      | none => []

/-- The body of the worker thread started by `OnEvent`, after its sleep: the
consumer invocations it makes. -/
def workerBody (handleId : Nat) (s : State) : List Effect :=
  match s.g_handles.find handleId with
  | none => []
  | some st =>
    if !st.running then []
    else
      match st.tsfn with
      | some sink => [Effect.consumerCall sink (Event.result "demo result (native)")]
      | none => []

/-! ## The exported operations -/

/-- The typed parameters `OpenSession` decodes from the options object. -/
structure Options where
  endpoint : String
  profileId : String
  codec : String
  sampleRate : Nat
  rtpMin : Nat
  rtpMax : Nat

/-- Lines 197-203 of `OpenSession`: each field is read with `Get` and coerced. -/
def decodeOptions (co : Coercions) (opts : JsValue) : Options where
  endpoint := co.ToString (opts.Get "endpoint")
  profileId := co.ToString (opts.Get "profileId")
  codec := co.ToString (opts.Get "codec")
  sampleRate := co.ToUint32 (opts.Get "sampleRate")
  rtpMin := co.ToUint32 (opts.Get "rtpPortMin")
  rtpMax := co.ToUint32 (opts.Get "rtpPortMax")

/-- The expression `codec == "PCMU" ? 0 : 96`. -/
def payloadTypeOf (codec : String) : Nat :=
  if codec = "PCMU" then 0 else 96

/-- The stub branch of `OpenSession` (lines 292-306). -/
def OpenSessionStub (o : Options) (s : State) : Outcome :=
  let handleId := s.g_nextHandle
  let st := s.g_handles.index handleId
  { state := { s with g_nextHandle := (s.g_nextHandle + 1) % UINT32,
                      g_handles := s.g_handles.set handleId { st with running := true } },
    ret := Ret.session
      { remoteIp := "127.0.0.1", remotePort := 5004, payloadType := payloadTypeOf o.codec,
        handle := handleId, ptimeMs := 20, localPort := o.rtpMin },
    effects := [] }

/-- Lines 206-260 of `OpenSession`: engine objects are created, the handle is
allocated and its record filled in, and the channel-add request is sent. The
result is the state in which the negotiation wait starts, whether a channel
exists, and the effects so far. -/
def OpenSessionSetup (engine : Engine) (s : State) : State × Bool × List Effect :=
  let i := SdkInitIfNeeded s
  let dirLayout := engine.dirLayoutCreate
  let client := dirLayout && engine.clientCreate
  let app := client && engine.applicationCreate
  let hid := s.g_nextHandle
  let st := i.1.g_handles.index hid
  let m1 := i.1.g_handles.set hid
    { st with running := true, dirLayout := dirLayout, client := client, app := app }
  let session := app && engine.sessionCreate
  let m2 := if session then
      m1.set hid { Registry.index m1 hid with session := true, appCtx := some hid }
    else m1
  let channel := session && engine.channelCreate
  ({ i.1 with g_nextHandle := (s.g_nextHandle + 1) % UINT32, g_handles := m2 },
   channel,
   i.2 ++ (if client then [Effect.clientStart] else [])
       ++ (if session then [Effect.ctxNew hid] else [])
       ++ (if channel then [Effect.channelAddRequest hid] else []))

/-- Lines 262-290 of `OpenSession`: after the `on_channel_add` invocations that
completed during the wait, the record of the new handle is read out and the
result is built. -/
def OpenSessionFinish (o : Options) (hid : Nat) (channel : Bool) (s : State) : State × SessionResult :=
  let found := s.g_handles.find hid
  let rip := match found with
    | some st => st.rip
    | none => ""
  let rport := match found with
    | some st => st.rport
    | none => 0
  let ptime := match found with
    | some st => if st.ptime ≠ 0 then st.ptime else 20
    | none => 0
  let m := match found with
    | some st => s.g_handles.set hid { st with channel := if channel then channel else st.channel }
    | none => s.g_handles
  ({ s with g_handles := m },
   { remoteIp := if rip = "" then "127.0.0.1" else rip,
     remotePort := if rport = 0 then 5004 else rport,
     payloadType := payloadTypeOf o.codec,
     handle := hid,
     ptimeMs := if ptime ≠ 0 then ptime else 20,
     localPort := o.rtpMin })

/-- The SDK branch of `OpenSession` (lines 207-290). -/
def OpenSessionSdk (o : Options) (engine : Engine) (s : State) : Outcome :=
  let setup := OpenSessionSetup engine s
  let waited := engine.callbacks.foldl (fun acc ev => on_channel_add ev acc) setup.1
  let fin := OpenSessionFinish o s.g_nextHandle setup.2.1 waited
  { state := fin.1, ret := Ret.session fin.2, effects := setup.2.2 }

/-- The exported `openSession`. -/
def OpenSession (b : Build) (args : List JsValue) (engine : Engine) (s : State) : Outcome :=
  match args with
  | [] => { state := s, ret := Ret.typeError "expected options object", effects := [] }
  | opts :: _ =>
    if !opts.IsObject then
      { state := s, ret := Ret.typeError "expected options object", effects := [] }
    else if b.sdk then OpenSessionSdk (decodeOptions b.co opts) engine s
    else OpenSessionStub (decodeOptions b.co opts) s

/-- Identity of the callback passed to `onEvent`. -/
def JsValue.functionId : JsValue → Nat
  | JsValue.function id => id
  | _ => 0

/-- Lines 327-369 of `OnEvent`, for the record `st` found at `handleId`: a new
thread-safe function is stored in the record, then a new thread is started and
move-assigned to `worker`. Move-assignment to a joinable `std::thread` calls
`std::terminate`. -/
def OnEventFound (handleId cb : Nat) (st : HandleState) (s : State) : Outcome :=
  match st.worker with
  | some _ =>
    { state := { s with g_handles := s.g_handles.set handleId
                          { st with tsfn := some { id := s.sinks, callback := cb } },
                        sinks := s.sinks + 1, threads := s.threads + 1 },
      ret := Ret.terminate,
      effects := [Effect.tsfnNew { id := s.sinks, callback := cb },
                  Effect.threadStart s.threads handleId] }
  | none =>
    { state := { s with g_handles := s.g_handles.set handleId
                          { st with tsfn := some { id := s.sinks, callback := cb },
                                    worker := some s.threads },
                        sinks := s.sinks + 1, threads := s.threads + 1 },
      ret := Ret.undefined,
      effects := [Effect.tsfnNew { id := s.sinks, callback := cb },
                  Effect.threadStart s.threads handleId] }

/-- The exported `onEvent`. -/
def OnEvent (args : List JsValue) (s : State) : Outcome :=
  match args with
  | a0 :: a1 :: _ =>
    if !a0.IsNumber || !a1.IsFunction then
      { state := s, ret := Ret.typeError "expected (handle:number, callback:function)",
        effects := [] }
    else
      match s.g_handles.find a0.Uint32Value with
      | none => { state := s, ret := Ret.error "invalid handle", effects := [] }
      | some st => OnEventFound a0.Uint32Value a1.functionId st s
  | _ => { state := s, ret := Ret.typeError "expected (handle:number, callback:function)",
           effects := [] }

/-- Effects of the locked part of `CloseSession` on the engine (lines 391-405,
SDK build). -/
def closeEngine (b : Build) (st : HandleState) : List Effect :=
  if b.sdk then
    (if st.session then [Effect.sessionTerminate, Effect.sessionDestroy] else [])
      ++ (if st.client then [Effect.clientShutdown] else [])
  else []

/-- Lines 415-422 of `CloseSession`: join, release, free the correlator and
drop the engine reference. -/
def closeCleanup (b : Build) (st : HandleState) (s : State) : State × List Effect :=
  let joined := match st.worker with
    | some tid => [Effect.threadJoin tid]
    | none => []
  let released := match st.tsfn with
    | some sink => [Effect.tsfnRelease sink]
    | none => []
  if b.sdk then
    let deleted := match st.appCtx with
      | some h => [Effect.ctxDelete h]
      | none => []
    let t := SdkTerminateIfNeeded s
    (t.1, joined ++ released ++ deleted ++ t.2)
  else (s, joined ++ released)

/-- The exported `closeSession`. The record is erased under the lock; what was
moved out of it is cleaned up afterwards. -/
def CloseSession (b : Build) (args : List JsValue) (s : State) : Outcome :=
  match args with
  | [] => { state := s, ret := Ret.typeError "expected (handle:number)", effects := [] }
  | a0 :: _ =>
    if !a0.IsNumber then
      { state := s, ret := Ret.typeError "expected (handle:number)", effects := [] }
    else
      match s.g_handles.find a0.Uint32Value with
      | none => { state := s, ret := Ret.undefined, effects := [] }
      | some st =>
        { state := (closeCleanup b st { s with g_handles := s.g_handles.erase a0.Uint32Value }).1,
          ret := Ret.undefined,
          effects := closeEngine b st
            ++ (closeCleanup b st { s with g_handles := s.g_handles.erase a0.Uint32Value }).2 }

/-! ## Traces -/

/-- What can happen next: a call from JavaScript, an engine callback, or a
worker thread waking from its sleep. -/
inductive Action where
  | openSession (args : List JsValue) (engine : Engine)
  | onEvent (args : List JsValue)
  | closeSession (args : List JsValue)
  | channelAdd (ev : ChannelAdd)
  | terminateEvent (ctx : Option Nat)
  | workerWake (handleId : Nat)

/-- One action applied to the globals. The engine callbacks exist in the SDK
build only. -/
def step (b : Build) (a : Action) (s : State) : Outcome :=
  match a with
  | Action.openSession args engine => OpenSession b args engine s
  | Action.onEvent args => OnEvent args s
  | Action.closeSession args => CloseSession b args s
  | Action.channelAdd ev =>
    { state := if b.sdk then on_channel_add ev s else s, ret := Ret.undefined, effects := [] }
  | Action.terminateEvent ctx =>
    { state := s, ret := Ret.undefined,
      effects := if b.sdk then on_terminate_event ctx s else [] }
  | Action.workerWake handleId =>
    { state := s, ret := Ret.undefined, effects := workerBody handleId s }

/-- An executed action with what it returned and did. -/
structure Step where
  action : Action
  ret : Ret
  effects : List Effect

/-- Run a list of actions; the process ends at the first `std::terminate`, the
remaining actions are not executed. -/
def run (b : Build) : State → List Action → State × List Step
  | s, [] => (s, [])
  | s, a :: rest =>
    let o := step b a s
    if o.ret = Ret.terminate then (o.state, [{ action := a, ret := o.ret, effects := o.effects }])
    else
      let r := run b o.state rest
      (r.1, { action := a, ret := o.ret, effects := o.effects } :: r.2)

/-- The handle a step handed out, if it is a successful `openSession`. -/
def Step.returned (t : Step) : Option Nat :=
  match t.action, t.ret with
  | Action.openSession _ _, Ret.session r => some r.handle
  | _, _ => none

/-- The handle a step closed: a `closeSession` call whose first argument is a
number, reduced to `uint32_t`. -/
def Step.closed (t : Step) : Option Nat :=
  match t.action with
  | Action.closeSession (a0 :: _) => if a0.IsNumber then some a0.Uint32Value else none
  | _ => none

/-- Handles returned by `openSession`, in call order. -/
def returnedHandles (hist : List Step) : List Nat :=
  hist.filterMap Step.returned

/-! ## Specification-side notions -/

/-- The stub build with the scenario coercions. -/
def stubBuild : Build := { sdk := false, co := jsCoercions }

/-- The SDK build with the scenario coercions. -/
def sdkBuild : Build := { sdk := true, co := jsCoercions }

/-- Whether `k` is a key of the registry. -/
def Registry.has (m : Registry) (k : Nat) : Bool := (Registry.find m k).isSome

/-- Handle `h` was returned by an earlier `openSession` and has not since been
passed to `closeSession`. -/
def OpenAndNotClosed (hist : List Step) (h : Nat) : Prop :=
  ∃ pre t post, hist = pre ++ t :: post ∧ t.returned = some h ∧ ∀ u ∈ post, u.closed ≠ some h

/-- Liveness of handle `h` after one more step, given its liveness before. -/
def liveStep (h : Nat) (live : Bool) (t : Step) : Bool :=
  if t.returned = some h then true
  else if t.closed = some h then false
  else live

/-- The guard at the head of `OpenSession`: no argument, or a first argument
that is not an object. -/
def malformedOpen (args : List JsValue) : Bool :=
  match args with
  | [] => true
  | opts :: _ => !opts.IsObject

/-- The record of executing action `a` in state `s`. -/
def mkStep (b : Build) (a : Action) (s : State) : Step :=
  { action := a, ret := (step b a s).ret, effects := (step b a s).effects }

/-- An engine that creates nothing and never calls back. -/
def idleEngine : Engine :=
  { dirLayoutCreate := false, clientCreate := false, applicationCreate := false,
    sessionCreate := false, channelCreate := false, callbacks := [] }

/-- The configuration of the concrete scenarios:
`codec "PCMU", sampleRate 8000, rtpPortMin 10000, rtpPortMax 10010`. -/
def scenarioConfig : JsValue :=
  JsValue.object
    [("codec", JsValue.string "PCMU"), ("sampleRate", JsValue.number 8000),
     ("rtpPortMin", JsValue.number 10000), ("rtpPortMax", JsValue.number 10010)]

/-- An engine that creates every object and reports channel-add success for
handle 1 with remote `10.0.0.5:6000`, ptime 20, before the wait ends. -/
def scenarioEngine : Engine :=
  { dirLayoutCreate := true, clientCreate := true, applicationCreate := true,
    sessionCreate := true, channelCreate := true,
    callbacks :=
      [{ ctx := some 1, channel := true, success := true,
         rtpDesc := some { remote := some { ip := "10.0.0.5", port := 6000, ptime := 20 },
                           local_ := none } }] }

/-- An engine that creates every object and never reports completion. -/
def silentEngine : Engine :=
  { dirLayoutCreate := true, clientCreate := true, applicationCreate := true,
    sessionCreate := true, channelCreate := true, callbacks := [] }

/-- An engine whose directory layout cannot be created. -/
def failingEngine : Engine :=
  { dirLayoutCreate := false, clientCreate := true, applicationCreate := true,
    sessionCreate := true, channelCreate := true, callbacks := [] }

/-- Whether an action is a delivery attempt for handle `h`: the terminate
callback with a correlator carrying `h`, or the worker of `h` waking up. -/
def Action.deliversTo : Action → Nat → Bool
  | Action.terminateEvent (some k), h => k == h
  | Action.workerWake k, h => k == h
  | _, _ => false

/-- All effects of a history, in order. -/
def effectsOf (hist : List Step) : List Effect :=
  hist.foldr (fun t acc => t.effects ++ acc) []

/-- Open a session, subscribe twice to its handle, then close it. -/
def doubleSubscribe : List Action :=
  [Action.openSession [JsValue.object []] idleEngine,
   Action.onEvent [JsValue.number 1, JsValue.function 0],
   Action.onEvent [JsValue.number 1, JsValue.function 1],
   Action.closeSession [JsValue.number 1]]

/-- A state in which handle 1 is open, subscribed by callback 9, with its
worker running. -/
def subscribedState : State :=
  { g_handles := [(1, { running := true, worker := some 0,
                        tsfn := some { id := 0, callback := 9 } })],
    g_nextHandle := 2, sinks := 1, threads := 1 }

/-- The trace `openSession(); closeSession(c); openSession(); closeSession(c + 1); ...`
of `k` rounds: every session is closed before the next one is opened. -/
def openClose : Nat → Nat → List Action
  | 0, _ => []
  | k + 1, c =>
    Action.openSession [JsValue.object []] idleEngine
      :: Action.closeSession [JsValue.number c] :: openClose k (c + 1)

/-- The trace of `openClose k c` followed by the actions `tail`. -/
def wrapThen : Nat → Nat → List Action → List Action
  | 0, _, tail => tail
  | k + 1, c, tail =>
    Action.openSession [JsValue.object []] idleEngine
      :: Action.closeSession [JsValue.number c] :: wrapThen k (c + 1) tail

/-- An engine that creates every object and reports channel-add success for
handle 1 with remote `10.0.0.5:6000`, ptime 30. -/
def firstEngine : Engine :=
  { dirLayoutCreate := true, clientCreate := true, applicationCreate := true,
    sessionCreate := true, channelCreate := true,
    callbacks :=
      [{ ctx := some 1, channel := true, success := true,
         rtpDesc := some { remote := some { ip := "10.0.0.5", port := 6000, ptime := 30 },
                           local_ := none } }] }

/-- An engine that creates every object and reports channel-add success for
handle 1 with remote `10.0.0.7:7000` and a remote ptime of 0. -/
def zeroPtimeEngine : Engine :=
  { dirLayoutCreate := true, clientCreate := true, applicationCreate := true,
    sessionCreate := true, channelCreate := true,
    callbacks :=
      [{ ctx := some 1, channel := true, success := true,
         rtpDesc := some { remote := some { ip := "10.0.0.7", port := 7000, ptime := 0 },
                           local_ := none } }] }

/-- The globals of the SDK build after the first session was opened against
`firstEngine` and left open. -/
def firstOpened : State :=
  { g_handles := [(1, { running := true, dirLayout := true, client := true, app := true,
                        session := true, channel := true, appCtx := some 1,
                        rip := "10.0.0.5", rport := 6000, ptime := 30, channelAdded := true })],
    g_nextHandle := 2, g_aprInitCount := 1 }

/-! ## Registry lemmas -/

theorem Registry.find_set_same (m : Registry) (h : Nat) (v : HandleState) :
    Registry.find (Registry.set m h v) h = some v := by
  induction m with
  | nil => simp [Registry.set, Registry.find]
  | cons e m ih =>
    obtain ⟨k, w⟩ := e
    by_cases hk : k = h
    · simp [Registry.set, Registry.find, hk]
    · simp [Registry.set, Registry.find, hk, ih]

theorem Registry.find_set_other (m : Registry) (h k : Nat) (v : HandleState) (hne : h ≠ k) :
    Registry.find (Registry.set m h v) k = Registry.find m k := by
  induction m with
  | nil => simp [Registry.set, Registry.find, hne]
  | cons e m ih =>
    obtain ⟨j, w⟩ := e
    by_cases hj : j = h
    · subst hj
      simp [Registry.set, Registry.find, hne]
    · by_cases hjk : j = k
      · subst hjk
        simp [Registry.set, Registry.find, hj]
      · simp [Registry.set, Registry.find, hj, hjk, ih]

theorem Registry.find_erase_same (m : Registry) (h : Nat) :
    Registry.find (Registry.erase m h) h = none := by
  induction m with
  | nil => simp [Registry.erase, Registry.find]
  | cons e m ih =>
    obtain ⟨k, w⟩ := e
    by_cases hk : k = h
    · simp [Registry.erase, hk, ih]
    · simp [Registry.erase, Registry.find, hk, ih]

theorem Registry.find_erase_other (m : Registry) (h k : Nat) (hne : h ≠ k) :
    Registry.find (Registry.erase m h) k = Registry.find m k := by
  induction m with
  | nil => simp [Registry.erase, Registry.find]
  | cons e m ih =>
    obtain ⟨j, w⟩ := e
    by_cases hj : j = h
    · subst hj
      simp [Registry.erase, Registry.find, hne, ih]
    · by_cases hjk : j = k
      · subst hjk
        simp [Registry.erase, Registry.find, hj]
      · simp [Registry.erase, Registry.find, hj, hjk, ih]

/-! ## Closing -/

theorem CloseSession_absent (b : Build) (a0 : JsValue) (rest : List JsValue) (s : State)
    (h : s.g_handles.find a0.Uint32Value = none) :
    (CloseSession b (a0 :: rest) s).state = s ∧ (CloseSession b (a0 :: rest) s).effects = [] := by
  unfold CloseSession
  by_cases hn : a0.IsNumber
  · simp [hn, h]
  · simp [hn]

theorem closeCleanup_handles (b : Build) (st : HandleState) (s : State) :
    (closeCleanup b st s).1.g_handles = s.g_handles := by
  unfold closeCleanup SdkTerminateIfNeeded
  by_cases hb : b.sdk
  · by_cases hc : 0 < s.g_aprInitCount <;> simp [hb, hc]
  · simp [hb]

theorem CloseSession_find_none (b : Build) (a0 : JsValue) (rest : List JsValue) (s : State)
    (hn : a0.IsNumber = true) :
    (CloseSession b (a0 :: rest) s).state.g_handles.find a0.Uint32Value = none := by
  unfold CloseSession
  cases hf : s.g_handles.find a0.Uint32Value with
  | none => simp [hn, hf]
  | some st => simp [hn, hf, closeCleanup_handles, Registry.find_erase_same]

theorem CloseSession_again (b : Build) (args : List JsValue) (s : State) :
    (CloseSession b args (CloseSession b args s).state).state = (CloseSession b args s).state
    ∧ (CloseSession b args (CloseSession b args s).state).effects = [] := by
  cases args with
  | nil => simp [CloseSession]
  | cons a0 rest =>
    by_cases hn : a0.IsNumber
    · exact CloseSession_absent b a0 rest _ (CloseSession_find_none b a0 rest s hn)
    · simp [CloseSession, hn]

theorem CloseSession_not_terminate (b : Build) (args : List JsValue) (s : State) :
    (CloseSession b args s).ret ≠ Ret.terminate := by
  unfold CloseSession
  cases args with
  | nil => simp
  | cons a0 rest =>
    by_cases hn : a0.IsNumber
    · cases hf : s.g_handles.find a0.Uint32Value <;> simp [hn, hf]
    · simp [hn]

theorem run_close_fixed (b : Build) (args : List JsValue) (s : State) (n : Nat)
    (hs : (CloseSession b args s).state = s) (he : (CloseSession b args s).effects = []) :
    (run b s (List.replicate n (Action.closeSession args))).1 = s
    ∧ ∀ t ∈ (run b s (List.replicate n (Action.closeSession args))).2, t.effects = [] := by
  induction n with
  | zero => simp [run]
  | succ n ih =>
    have hnt := CloseSession_not_terminate b args s
    simp only [List.replicate_succ, run, step, hnt, if_false, hs]
    refine ⟨ih.1, ?_⟩
    intro t ht
    rcases List.mem_cons.mp ht with h | h
    · rw [h]; exact he
    · exact ih.2 t h

/-- C2: closing a handle again, any number of times, leaves the globals as the
first close left them, and the further calls have no effect at all (no join,
no release, no correlator free; the engine reference count is part of the
unchanged globals). Closing a handle that is not a key of the registry changes
nothing and does nothing. -/
theorem C2_closeSession_idempotent (b : Build) (args : List JsValue) (s : State) (n : Nat) :
    (run b s (List.replicate (n + 1) (Action.closeSession args))).1 = (CloseSession b args s).state
    ∧ (∀ t ∈ (run b s (List.replicate (n + 1) (Action.closeSession args))).2.tail, t.effects = [])
    ∧ (∀ (h : Nat) (rest : List JsValue), s.g_handles.find (h % UINT32) = none →
        CloseSession b (JsValue.number h :: rest) s
          = { state := s, ret := Ret.undefined, effects := [] }) := by
  have hnt := CloseSession_not_terminate b args s
  have hfix := run_close_fixed b args (CloseSession b args s).state n
    (CloseSession_again b args s).1 (CloseSession_again b args s).2
  refine ⟨?_, ?_, ?_⟩
  · simp only [List.replicate_succ, run, step, hnt, if_false]
    exact hfix.1
  · simp only [List.replicate_succ, run, step, hnt, if_false, List.tail_cons]
    exact hfix.2
  · intro h rest habs
    simp [CloseSession, JsValue.IsNumber, JsValue.Uint32Value, habs]

/-- C2 at a concrete state: handle 1 is open with a sink and a worker; three
closes in a row, and a close of the unknown handle 7. -/
theorem C2_closeSession_idempotent_witness :
    ((run stubBuild
        { g_handles := [(1, { running := true, worker := some 0, tsfn := some ⟨0, 9⟩ })],
          g_nextHandle := 2, sinks := 1, threads := 1 }
        (List.replicate 3 (Action.closeSession [JsValue.number 1]))).1
      = { g_handles := [], g_nextHandle := 2, sinks := 1, threads := 1 })
    ∧ CloseSession stubBuild [JsValue.number 7]
        { g_handles := [(1, { running := true, worker := some 0, tsfn := some ⟨0, 9⟩ })],
          g_nextHandle := 2, sinks := 1, threads := 1 }
      = { state := { g_handles := [(1, { running := true, worker := some 0, tsfn := some ⟨0, 9⟩ })],
                     g_nextHandle := 2, sinks := 1, threads := 1 },
          ret := Ret.undefined, effects := [] } :=
  ⟨(C2_closeSession_idempotent stubBuild [JsValue.number 1] _ 2).1.trans (by decide),
   (C2_closeSession_idempotent stubBuild [JsValue.number 1]
      { g_handles := [(1, { running := true, worker := some 0, tsfn := some ⟨0, 9⟩ })],
        g_nextHandle := 2, sinks := 1, threads := 1 } 0).2.2 7 [] (by decide)⟩

theorem OnEvent_absent (s : State) (h cb : Nat) (rest : List JsValue)
    (habs : s.g_handles.find (h % UINT32) = none) :
    OnEvent (JsValue.number h :: JsValue.function cb :: rest) s
      = { state := s, ret := Ret.error "invalid handle", effects := [] } := by
  simp [OnEvent, JsValue.IsNumber, JsValue.IsFunction, JsValue.Uint32Value, habs]

/-- C3: `onEvent` on a handle that is not a key of the registry throws
"invalid handle", leaves the globals (registry, sink and thread counts)
unchanged and has no effect: no sink is created and no thread is started. -/
theorem C3_onEvent_unknown_handle (s : State) (h cb : Nat) (rest : List JsValue)
    (habs : s.g_handles.find (h % UINT32) = none) :
    OnEvent (JsValue.number h :: JsValue.function cb :: rest) s
      = { state := s, ret := Ret.error "invalid handle", effects := [] } :=
  OnEvent_absent s h cb rest habs

/-- C3 at the initial state and at a state where only handle 1 is open. -/
theorem C3_onEvent_unknown_handle_witness :
    OnEvent [JsValue.number 5, JsValue.function 0]
        { g_handles := [(1, { running := true })], g_nextHandle := 2 }
      = { state := { g_handles := [(1, { running := true })], g_nextHandle := 2 },
          ret := Ret.error "invalid handle", effects := [] } :=
  C3_onEvent_unknown_handle _ 5 0 [] (by decide)

/-! ## Keys of the registry and the handle counter, step by step -/

theorem Registry.has_set (m : Registry) (h k : Nat) (v : HandleState) :
    Registry.has (Registry.set m h v) k = (decide (h = k) || Registry.has m k) := by
  unfold Registry.has
  by_cases hk : h = k
  · subst hk
    simp [Registry.find_set_same]
  · simp [Registry.find_set_other m h k v hk, hk]

theorem Registry.has_erase (m : Registry) (h k : Nat) :
    Registry.has (Registry.erase m h) k = (!decide (h = k) && Registry.has m k) := by
  unfold Registry.has
  by_cases hk : h = k
  · subst hk
    simp [Registry.find_erase_same]
  · simp [Registry.find_erase_other m h k hk, hk]

theorem Registry.has_set_present (m : Registry) (h k : Nat) (v : HandleState)
    (hp : Registry.has m h = true) :
    Registry.has (Registry.set m h v) k = Registry.has m k := by
  rw [Registry.has_set]
  by_cases hk : h = k
  · subst hk
    simp [hp]
  · simp [hk]

theorem on_channel_add_has (ev : ChannelAdd) (s : State) (k : Nat) :
    (on_channel_add ev s).g_handles.has k = s.g_handles.has k := by
  unfold on_channel_add
  cases ev.ctx with
  | none => rfl
  | some handleId =>
    cases hf : s.g_handles.find handleId with
    | none => simp only [hf]
    | some st =>
      simp only [hf]
      apply Registry.has_set_present
      simp [Registry.has, hf]

theorem on_channel_add_globals (ev : ChannelAdd) (s : State) :
    (on_channel_add ev s).g_nextHandle = s.g_nextHandle
    ∧ (on_channel_add ev s).g_aprInitCount = s.g_aprInitCount
    ∧ (on_channel_add ev s).sinks = s.sinks
    ∧ (on_channel_add ev s).threads = s.threads := by
  unfold on_channel_add
  cases ev.ctx with
  | none => simp
  | some handleId =>
    cases hf : s.g_handles.find handleId <;> simp [hf]

theorem wait_has (evs : List ChannelAdd) (s : State) (k : Nat) :
    (evs.foldl (fun acc ev => on_channel_add ev acc) s).g_handles.has k = s.g_handles.has k := by
  induction evs generalizing s with
  | nil => rfl
  | cons ev evs ih => simp only [List.foldl_cons, ih, on_channel_add_has]

theorem wait_next (evs : List ChannelAdd) (s : State) :
    (evs.foldl (fun acc ev => on_channel_add ev acc) s).g_nextHandle = s.g_nextHandle := by
  induction evs generalizing s with
  | nil => rfl
  | cons ev evs ih => simp only [List.foldl_cons, ih, (on_channel_add_globals ev s).1]

theorem OpenSessionSetup_has (engine : Engine) (s : State) (k : Nat) :
    (OpenSessionSetup engine s).1.g_handles.has k
      = (decide (s.g_nextHandle = k) || s.g_handles.has k) := by
  unfold OpenSessionSetup SdkInitIfNeeded
  by_cases hs : (engine.dirLayoutCreate && engine.clientCreate && engine.applicationCreate
      && engine.sessionCreate) = true
  · simp only [hs, if_true, Registry.has_set]
    cases decide (s.g_nextHandle = k) <;> simp
  · simp only [hs, Bool.false_eq_true, if_false, Registry.has_set]

theorem OpenSessionSetup_next (engine : Engine) (s : State) :
    (OpenSessionSetup engine s).1.g_nextHandle = (s.g_nextHandle + 1) % UINT32 := by
  simp [OpenSessionSetup]

theorem OpenSessionFinish_has (o : Options) (hid : Nat) (channel : Bool) (s : State) (k : Nat) :
    (OpenSessionFinish o hid channel s).1.g_handles.has k = s.g_handles.has k := by
  unfold OpenSessionFinish
  cases hf : s.g_handles.find hid with
  | none => simp only [hf]
  | some st =>
    simp only [hf]
    apply Registry.has_set_present
    simp [Registry.has, hf]

theorem OpenSessionFinish_next (o : Options) (hid : Nat) (channel : Bool) (s : State) :
    (OpenSessionFinish o hid channel s).1.g_nextHandle = s.g_nextHandle
    ∧ (OpenSessionFinish o hid channel s).2.handle = hid := by
  simp [OpenSessionFinish]

theorem OpenSession_malformed (b : Build) (args : List JsValue) (engine : Engine) (s : State)
    (hbad : malformedOpen args = true) :
    OpenSession b args engine s
      = { state := s, ret := Ret.typeError "expected options object", effects := [] } := by
  cases args with
  | nil => rfl
  | cons opts rest =>
    simp only [malformedOpen] at hbad
    simp [OpenSession, hbad]

theorem OpenSession_wellformed (b : Build) (args : List JsValue) (engine : Engine) (s : State)
    (hok : malformedOpen args = false) :
    ∃ r, (OpenSession b args engine s).ret = Ret.session r
      ∧ r.handle = s.g_nextHandle
      ∧ (OpenSession b args engine s).state.g_nextHandle = (s.g_nextHandle + 1) % UINT32
      ∧ ∀ k, (OpenSession b args engine s).state.g_handles.has k
          = (decide (s.g_nextHandle = k) || s.g_handles.has k) := by
  cases args with
  | nil => simp [malformedOpen] at hok
  | cons opts rest =>
    simp only [malformedOpen, Bool.not_eq_false_eq_eq_true, Bool.not_eq_eq_eq_not,
      Bool.not_false] at hok
    by_cases hb : b.sdk = true
    · have he : OpenSession b (opts :: rest) engine s
          = OpenSessionSdk (decodeOptions b.co opts) engine s := by
        simp [OpenSession, hok, hb]
      rw [he]
      unfold OpenSessionSdk
      refine ⟨_, rfl, (OpenSessionFinish_next _ _ _ _).2, ?_, ?_⟩
      · simp only [(OpenSessionFinish_next _ _ _ _).1, wait_next, OpenSessionSetup_next]
      · intro k
        simp only [OpenSessionFinish_has, wait_has, OpenSessionSetup_has]
    · have he : OpenSession b (opts :: rest) engine s
          = OpenSessionStub (decodeOptions b.co opts) s := by
        simp [OpenSession, hok, hb]
      rw [he]
      refine ⟨_, rfl, rfl, rfl, ?_⟩
      intro k
      exact Registry.has_set _ _ _ _

theorem OnEventFound_has (handleId cb : Nat) (st : HandleState) (s : State) (k : Nat)
    (hp : s.g_handles.has handleId = true) :
    (OnEventFound handleId cb st s).state.g_handles.has k = s.g_handles.has k
    ∧ (OnEventFound handleId cb st s).state.g_nextHandle = s.g_nextHandle := by
  unfold OnEventFound
  cases st.worker with
  | none => exact ⟨Registry.has_set_present _ _ _ _ hp, rfl⟩
  | some tid => exact ⟨Registry.has_set_present _ _ _ _ hp, rfl⟩

theorem OnEvent_has (args : List JsValue) (s : State) (k : Nat) :
    (OnEvent args s).state.g_handles.has k = s.g_handles.has k
    ∧ (OnEvent args s).state.g_nextHandle = s.g_nextHandle := by
  unfold OnEvent
  split
  · rename_i a0 a1 rest
    split
    · exact ⟨rfl, rfl⟩
    · cases hf : s.g_handles.find a0.Uint32Value with
      | none => exact ⟨rfl, rfl⟩
      | some st =>
        exact OnEventFound_has _ _ _ _ _ (by simp [Registry.has, hf])
  · exact ⟨rfl, rfl⟩

theorem closeCleanup_next (b : Build) (st : HandleState) (s : State) :
    (closeCleanup b st s).1.g_nextHandle = s.g_nextHandle := by
  unfold closeCleanup SdkTerminateIfNeeded
  by_cases hb : b.sdk
  · by_cases hc : 0 < s.g_aprInitCount <;> simp [hb, hc]
  · simp [hb]

theorem CloseSession_next (b : Build) (args : List JsValue) (s : State) :
    (CloseSession b args s).state.g_nextHandle = s.g_nextHandle := by
  unfold CloseSession
  split
  · rfl
  · split
    · rfl
    · split
      · rfl
      · simp only [closeCleanup_next]

theorem CloseSession_has (b : Build) (a0 : JsValue) (rest : List JsValue) (s : State) (k : Nat) :
    (CloseSession b (a0 :: rest) s).state.g_handles.has k
      = if a0.IsNumber = true then (!decide (a0.Uint32Value = k) && s.g_handles.has k)
        else s.g_handles.has k := by
  unfold CloseSession
  by_cases hn : a0.IsNumber = true
  · simp only [hn, Bool.not_true, Bool.false_eq_true, if_false, if_true]
    split
    · rename_i hf
      by_cases hk : a0.Uint32Value = k
      · subst hk
        simp [Registry.has, hf]
      · simp [hk]
    · simp only [closeCleanup_handles, Registry.has_erase]
  · simp [hn]

theorem step_has (b : Build) (a : Action) (s : State) (k : Nat) :
    (step b a s).state.g_handles.has k = liveStep k (s.g_handles.has k) (mkStep b a s) := by
  cases a with
  | openSession args engine =>
    cases hm : malformedOpen args with
    | true =>
      simp [step, mkStep, liveStep, Step.returned, Step.closed,
        OpenSession_malformed b args engine s hm]
    | false =>
      obtain ⟨r, hr, hh, -, hk⟩ := OpenSession_wellformed b args engine s hm
      simp only [step, mkStep, liveStep, Step.returned, Step.closed, hr, hk, hh]
      by_cases hkk : s.g_nextHandle = k <;> simp [hkk]
  | onEvent args =>
    simp [step, mkStep, liveStep, Step.returned, Step.closed, (OnEvent_has args s k).1]
  | closeSession args =>
    cases args with
    | nil => simp [step, mkStep, liveStep, Step.returned, Step.closed, CloseSession]
    | cons a0 rest =>
      simp only [step, mkStep, liveStep, Step.returned, Step.closed, CloseSession_has]
      by_cases hn : a0.IsNumber = true
      · by_cases hk : a0.Uint32Value = k <;> simp [hn, hk]
      · simp [hn]
  | channelAdd ev =>
    by_cases hb : b.sdk = true
    · simp [step, mkStep, liveStep, Step.returned, Step.closed, hb, on_channel_add_has]
    · simp [step, mkStep, liveStep, Step.returned, Step.closed, hb]
  | terminateEvent ctx => simp [step, mkStep, liveStep, Step.returned, Step.closed]
  | workerWake handleId => simp [step, mkStep, liveStep, Step.returned, Step.closed]

theorem step_next (b : Build) (a : Action) (s : State) :
    ((mkStep b a s).returned = none ∧ (step b a s).state.g_nextHandle = s.g_nextHandle)
    ∨ ((mkStep b a s).returned = some s.g_nextHandle
        ∧ (step b a s).state.g_nextHandle = (s.g_nextHandle + 1) % UINT32) := by
  cases a with
  | openSession args engine =>
    cases hm : malformedOpen args with
    | true =>
      left
      simp [step, mkStep, Step.returned, OpenSession_malformed b args engine s hm]
    | false =>
      obtain ⟨r, hr, hh, hn, -⟩ := OpenSession_wellformed b args engine s hm
      right
      simp only [step, mkStep, Step.returned, hr, hh, hn, and_self]
  | onEvent args =>
    left
    simp [step, mkStep, Step.returned, (OnEvent_has args s 0).2]
  | closeSession args =>
    left
    simp [step, mkStep, Step.returned, CloseSession_next]
  | channelAdd ev =>
    left
    by_cases hb : b.sdk = true
    · simp [step, mkStep, Step.returned, hb, (on_channel_add_globals ev s).1]
    · simp [step, mkStep, Step.returned, hb]
  | terminateEvent ctx =>
    left
    simp [step, mkStep, Step.returned]
  | workerWake handleId =>
    left
    simp [step, mkStep, Step.returned]

theorem run_cons (b : Build) (s : State) (a : Action) (rest : List Action) :
    run b s (a :: rest)
      = if (step b a s).ret = Ret.terminate then ((step b a s).state, [mkStep b a s])
        else ((run b (step b a s).state rest).1, mkStep b a s :: (run b (step b a s).state rest).2) :=
  rfl

theorem run_has (b : Build) (acts : List Action) (s : State) (k : Nat) :
    (run b s acts).1.g_handles.has k
      = (run b s acts).2.foldl (liveStep k) (s.g_handles.has k) := by
  induction acts generalizing s with
  | nil => rfl
  | cons a rest ih =>
    rw [run_cons]
    by_cases ht : (step b a s).ret = Ret.terminate
    · simp only [ht, if_true, List.foldl_cons, List.foldl_nil, step_has]
    · simp only [ht, if_false, List.foldl_cons, ih, step_has]

/-! ## Registry membership against the call history -/

theorem OpenAndNotClosed_nil (h : Nat) : ¬ OpenAndNotClosed [] h := by
  rintro ⟨pre, t, post, he, -, -⟩
  simp at he

theorem OpenAndNotClosed_cons (t : Step) (hist : List Step) (h : Nat) :
    OpenAndNotClosed (t :: hist) h
      ↔ (t.returned = some h ∧ ∀ u ∈ hist, u.closed ≠ some h) ∨ OpenAndNotClosed hist h := by
  constructor
  · rintro ⟨pre, u, post, he, hr, hc⟩
    cases pre with
    | nil =>
      simp only [List.nil_append, List.cons.injEq] at he
      obtain ⟨h1, h2⟩ := he
      subst h1 h2
      exact Or.inl ⟨hr, hc⟩
    | cons p pre =>
      simp only [List.cons_append, List.cons.injEq] at he
      exact Or.inr ⟨pre, u, post, he.2, hr, hc⟩
  · rintro (⟨hr, hc⟩ | ⟨pre, u, post, he, hr, hc⟩)
    · exact ⟨[], t, hist, rfl, hr, hc⟩
    · exact ⟨t :: pre, u, post, by simp [he], hr, hc⟩

theorem liveStep_true (h : Nat) (live : Bool) (t : Step) :
    liveStep h live t = true ↔ t.returned = some h ∨ (t.closed ≠ some h ∧ live = true) := by
  unfold liveStep
  by_cases hr : t.returned = some h
  · simp [hr]
  · by_cases hc : t.closed = some h <;> simp [hr, hc]

theorem live_fold_iff (hist : List Step) (h : Nat) (live : Bool) :
    hist.foldl (liveStep h) live = true
      ↔ OpenAndNotClosed hist h ∨ (live = true ∧ ∀ u ∈ hist, u.closed ≠ some h) := by
  induction hist generalizing live with
  | nil => simp [OpenAndNotClosed_nil]
  | cons t hist ih =>
    rw [List.foldl_cons, ih, OpenAndNotClosed_cons, liveStep_true]
    simp only [List.mem_cons, forall_eq_or_imp]
    constructor
    · rintro (hh | ⟨hr | ⟨hc, hl⟩, hn⟩)
      · exact Or.inl (Or.inr hh)
      · exact Or.inl (Or.inl ⟨hr, hn⟩)
      · exact Or.inr ⟨hl, hc, hn⟩
    · rintro ((⟨hr, hn⟩ | hh) | ⟨hl, hc, hn⟩)
      · exact Or.inr ⟨Or.inl hr, hn⟩
      · exact Or.inl hh
      · exact Or.inr ⟨Or.inr ⟨hc, hl⟩, hn⟩

/-- C4: after any run from the empty registry (calls from JavaScript, engine
callbacks and worker wake-ups in any order), a handle is a key of the registry
exactly when some earlier `openSession` returned it and no later `closeSession`
was passed it. Right after `closeSession(n)`, in any state, the handle is not a
key and `onEvent` on it throws "invalid handle". -/
theorem C4_registry_key_iff (b : Build) (acts : List Action) (h : Nat) :
    (((run b State.init acts).1.g_handles.find h).isSome = true
        ↔ OpenAndNotClosed (run b State.init acts).2 h)
    ∧ (∀ (s : State) (n cb : Nat) (rest rest2 : List JsValue),
        (CloseSession b (JsValue.number n :: rest) s).state.g_handles.find (n % UINT32) = none
        ∧ (OnEvent (JsValue.number n :: JsValue.function cb :: rest2)
              (CloseSession b (JsValue.number n :: rest) s).state).ret
            = Ret.error "invalid handle") := by
  constructor
  · have hrun := run_has b acts State.init h
    unfold Registry.has at hrun
    rw [hrun, live_fold_iff]
    simp [State.init, Registry.find]
  · intro s n cb rest rest2
    have hnone := CloseSession_find_none b (JsValue.number n) rest s rfl
    refine ⟨hnone, ?_⟩
    rw [OnEvent_absent _ n cb rest2 hnone]

/-! ## Handles in call order -/

theorem returnedHandles_cons (t : Step) (hist : List Step) :
    returnedHandles (t :: hist)
      = match t.returned with
        | some h => h :: returnedHandles hist
        | none => returnedHandles hist := by
  unfold returnedHandles
  cases ht : t.returned <;> simp [List.filterMap_cons, ht]

theorem step_terminate_returned (b : Build) (a : Action) (s : State)
    (ht : (step b a s).ret = Ret.terminate) : (mkStep b a s).returned = none := by
  unfold Step.returned mkStep
  simp only [ht]

theorem counter_shift (c i : Nat) : ((c + 1) % UINT32 + i) % UINT32 = (c + (i + 1)) % UINT32 := by
  rw [Nat.mod_add_mod]
  congr 1
  omega

theorem returned_shape (b : Build) (acts : List Action) (s : State)
    (hlt : s.g_nextHandle < UINT32) :
    ∃ k, returnedHandles (run b s acts).2
        = (List.range k).map (fun i => (s.g_nextHandle + i) % UINT32)
      ∧ (run b s acts).1.g_nextHandle = (s.g_nextHandle + k) % UINT32 := by
  induction acts generalizing s with
  | nil => exact ⟨0, rfl, (Nat.mod_eq_of_lt hlt).symm⟩
  | cons a rest ih =>
    have hpos : 0 < UINT32 := by unfold UINT32; norm_num
    rw [run_cons]
    by_cases ht : (step b a s).ret = Ret.terminate
    · have hr := step_terminate_returned b a s ht
      have hn : (step b a s).state.g_nextHandle = s.g_nextHandle := by
        rcases step_next b a s with ⟨-, hn⟩ | ⟨hr2, -⟩
        · exact hn
        · rw [hr] at hr2
          cases hr2
      refine ⟨0, ?_, ?_⟩
      · simp [ht, returnedHandles_cons, hr, returnedHandles]
      · simp only [ht, if_true, hn, Nat.add_zero, Nat.mod_eq_of_lt hlt]
    · simp only [ht, if_false, returnedHandles_cons]
      rcases step_next b a s with ⟨hr, hn⟩ | ⟨hr, hn⟩
      · obtain ⟨k, hk, hc⟩ := ih (step b a s).state (by rw [hn]; exact hlt)
        exact ⟨k, by rw [hr, hk, hn], by rw [hc, hn]⟩
      · obtain ⟨k, hk, hc⟩ := ih (step b a s).state (by rw [hn]; exact Nat.mod_lt _ hpos)
        refine ⟨k + 1, ?_, ?_⟩
        · rw [hr, hk, hn, List.range_succ_eq_map]
          simp only [List.map_cons, List.map_map, Nat.add_zero, Nat.mod_eq_of_lt hlt]
          congr 1
          apply List.map_congr_left
          intro i _
          exact counter_shift _ i
        · rw [hc, hn, counter_shift]

theorem returned_openClose_length (b : Build) (k c : Nat) (s : State) :
    (returnedHandles (run b s (openClose k c)).2).length = k := by
  induction k generalizing s c with
  | zero => rfl
  | succ k ih =>
    obtain ⟨r, hr, -, -, -⟩ :=
      OpenSession_wellformed b [JsValue.object []] idleEngine s rfl
    have hnt : (step b (Action.openSession [JsValue.object []] idleEngine) s).ret
        ≠ Ret.terminate := by
      simp [step, hr]
    have hret : (mkStep b (Action.openSession [JsValue.object []] idleEngine) s).returned
        = some r.handle := by
      simp [mkStep, Step.returned, step, hr]
    have hnt2 : ∀ t : State, (step b (Action.closeSession [JsValue.number c]) t).ret
        ≠ Ret.terminate := fun t => CloseSession_not_terminate b _ t
    have hret2 : ∀ t : State,
        (mkStep b (Action.closeSession [JsValue.number c]) t).returned = none := fun t => rfl
    simp only [openClose, run_cons, hnt, hnt2, if_false, returnedHandles_cons, hret, hret2,
      List.length_cons, ih]

theorem init_next_lt : State.init.g_nextHandle < UINT32 := by
  unfold UINT32 State.init
  norm_num

/-- C1, as the code has it: in every run from the initial state (calls from
JavaScript, engine callbacks and worker wake-ups in any order) in which
`openSession` hands out fewer than `2 ^ 32` handles, the handles returned are
strictly increasing in call order and pairwise distinct. -/
theorem C1_handles_increasing (b : Build) (acts : List Action)
    (hlen : (returnedHandles (run b State.init acts).2).length < UINT32) :
    List.Pairwise (fun x y => x < y) (returnedHandles (run b State.init acts).2)
    ∧ (returnedHandles (run b State.init acts).2).Nodup := by
  obtain ⟨k, hk, -⟩ := returned_shape b acts State.init init_next_lt
  have hkl : k < UINT32 := by
    have := congrArg List.length hk
    simp only [List.length_map, List.length_range] at this
    omega
  have hinc : List.Pairwise (fun x y => x < y) (returnedHandles (run b State.init acts).2) := by
    rw [hk, List.pairwise_map]
    refine List.Pairwise.imp_of_mem ?_ (List.pairwise_lt_range k)
    intro i j hi hj hij
    have hi2 := List.mem_range.mp hi
    have hj2 := List.mem_range.mp hj
    have h1 : State.init.g_nextHandle = 1 := rfl
    rw [h1, Nat.mod_eq_of_lt (by omega), Nat.mod_eq_of_lt (by omega)]
    omega
  exact ⟨hinc, hinc.imp (fun h => Nat.ne_of_lt h)⟩

/-- C1 on three `openSession` calls with a subscribe and a close in between. -/
theorem C1_handles_increasing_witness :
    List.Pairwise (fun x y => x < y)
      (returnedHandles (run stubBuild State.init
        [Action.openSession [JsValue.object []] idleEngine,
         Action.onEvent [JsValue.number 1, JsValue.function 0],
         Action.openSession [JsValue.object []] idleEngine,
         Action.closeSession [JsValue.number 1],
         Action.openSession [JsValue.object []] idleEngine]).2)
    ∧ (returnedHandles (run stubBuild State.init
        [Action.openSession [JsValue.object []] idleEngine,
         Action.onEvent [JsValue.number 1, JsValue.function 0],
         Action.openSession [JsValue.object []] idleEngine,
         Action.closeSession [JsValue.number 1],
         Action.openSession [JsValue.object []] idleEngine]).2).Nodup :=
  C1_handles_increasing stubBuild _ (by decide)

/-- C1 fails as stated: `2 ^ 32` rounds of `openSession` followed by
`closeSession` of the handle just returned, from the initial state, return
1, 2, ..., 4294967295 and then 0, because `g_nextHandle` is a `uint32_t` and
wraps. -/
theorem C1_counterexample :
    ¬ List.Pairwise (fun x y => x < y)
        (returnedHandles (run stubBuild State.init (openClose 4294967296 1)).2) := by
  intro hp
  obtain ⟨k, hk, -⟩ := returned_shape stubBuild (openClose 4294967296 1) State.init init_next_lt
  have hlen := returned_openClose_length stubBuild 4294967296 1 State.init
  rw [hk] at hlen hp
  simp only [List.length_map, List.length_range] at hlen
  subst hlen
  have hsplit : List.range 4294967296 = List.range 4294967295 ++ [4294967295] :=
    List.range_succ 4294967295
  rw [hsplit, List.map_append, List.pairwise_append] at hp
  have h1 : State.init.g_nextHandle = 1 := rfl
  have hlt := hp.2.2 ((State.init.g_nextHandle + 0) % UINT32)
    (List.mem_map.mpr ⟨0, List.mem_range.mpr (by norm_num), rfl⟩)
    ((State.init.g_nextHandle + 4294967295) % UINT32)
    (by simp)
  rw [h1] at hlt
  unfold UINT32 at hlt
  norm_num at hlt

/-! ## Freshness of the next handle -/

theorem returned_of_live (hist : List Step) (h : Nat) (hl : OpenAndNotClosed hist h) :
    h ∈ returnedHandles hist := by
  obtain ⟨pre, t, post, he, hr, -⟩ := hl
  unfold returnedHandles
  rw [List.mem_filterMap]
  exact ⟨t, by simp [he], hr⟩

/-- Until the counter is about to wrap, the handle `openSession` will allocate
next is not a key of the registry: in every run from the initial state that has
handed out fewer than `2 ^ 32 - 1` handles. -/
theorem fresh_before_wrap (b : Build) (acts : List Action)
    (hlen : (returnedHandles (run b State.init acts).2).length + 1 < UINT32) :
    (run b State.init acts).1.g_handles.find (run b State.init acts).1.g_nextHandle = none := by
  obtain ⟨k, hk, hc⟩ := returned_shape b acts State.init init_next_lt
  have hkl : k + 1 < UINT32 := by
    have := congrArg List.length hk
    simp only [List.length_map, List.length_range] at this
    omega
  have h1 : State.init.g_nextHandle = 1 := rfl
  rw [h1] at hk hc
  rw [Nat.mod_eq_of_lt (by omega)] at hc
  cases hf : (run b State.init acts).1.g_handles.find (run b State.init acts).1.g_nextHandle with
  | none => rfl
  | some st =>
    exfalso
    have hhas : (run b State.init acts).1.g_handles.has (run b State.init acts).1.g_nextHandle
        = true := by
      simp [Registry.has, hf]
    rw [run_has, live_fold_iff] at hhas
    rcases hhas with hl | ⟨hfalse, -⟩
    · have hmem := returned_of_live _ _ hl
      rw [hk, hc, List.mem_map] at hmem
      obtain ⟨i, hi, hie⟩ := hmem
      have hi2 := List.mem_range.mp hi
      rw [Nat.mod_eq_of_lt (by omega)] at hie
      omega
    · simp [State.init, Registry.has, Registry.find] at hfalse

/-! ## The record of the new handle during `OpenSession` -/

theorem on_channel_add_find_other (ev : ChannelAdd) (s : State) (hid : Nat)
    (hne : ev.ctx ≠ some hid) :
    (on_channel_add ev s).g_handles.find hid = s.g_handles.find hid := by
  unfold on_channel_add
  cases hc : ev.ctx with
  | none => rfl
  | some handleId =>
    have hk : handleId ≠ hid := by
      intro he
      exact hne (by rw [hc, he])
    cases hf : s.g_handles.find handleId with
    | none => simp only [hf]
    | some st => simp only [hf, Registry.find_set_other _ _ _ _ hk]

theorem on_channel_add_find_same (ev : ChannelAdd) (s : State) (hid : Nat) (st : HandleState)
    (hc : ev.ctx = some hid) (hf : s.g_handles.find hid = some st) :
    (on_channel_add ev s).g_handles.find hid = some (channelAddRecord ev st) := by
  unfold on_channel_add
  simp only [hc, hf, Registry.find_set_same]

theorem wait_find_other (evs : List ChannelAdd) (s : State) (hid : Nat)
    (hne : ∀ e ∈ evs, e.ctx ≠ some hid) :
    (evs.foldl (fun acc ev => on_channel_add ev acc) s).g_handles.find hid
      = s.g_handles.find hid := by
  induction evs generalizing s with
  | nil => rfl
  | cons ev evs ih =>
    rw [List.foldl_cons, ih _ (fun e he => hne e (List.mem_cons_of_mem _ he)),
      on_channel_add_find_other ev s hid (hne ev (List.mem_cons_self _ _))]

theorem OpenSessionSetup_find (engine : Engine) (s : State)
    (hfresh : s.g_handles.find s.g_nextHandle = none) :
    ∃ st, (OpenSessionSetup engine s).1.g_handles.find s.g_nextHandle = some st
      ∧ st.rip = "" ∧ st.rport = 0 ∧ st.ptime = 0 ∧ st.running = true := by
  unfold OpenSessionSetup SdkInitIfNeeded
  by_cases hs : (engine.dirLayoutCreate && engine.clientCreate && engine.applicationCreate
      && engine.sessionCreate) = true
  · simp only [hs, if_true, Registry.find_set_same, Registry.index, hfresh, Option.getD_none,
      Option.getD_some]
    exact ⟨_, rfl, rfl, rfl, rfl, rfl⟩
  · simp only [hs, Bool.false_eq_true, if_false, Registry.find_set_same, Registry.index, hfresh,
      Option.getD_none]
    exact ⟨_, rfl, rfl, rfl, rfl, rfl⟩

theorem OpenSessionFinish_result (o : Options) (hid : Nat) (channel : Bool) (s : State)
    (st : HandleState) (hf : s.g_handles.find hid = some st) :
    (OpenSessionFinish o hid channel s).2
      = { remoteIp := if st.rip = "" then "127.0.0.1" else st.rip,
          remotePort := if st.rport = 0 then 5004 else st.rport,
          payloadType := payloadTypeOf o.codec,
          handle := hid,
          ptimeMs := if st.ptime = 0 then 20 else st.ptime,
          localPort := o.rtpMin } := by
  unfold OpenSessionFinish
  simp only [hf]
  by_cases hp : st.ptime = 0 <;> simp [hp]

theorem OpenSession_object (b : Build) (opts : JsValue) (rest : List JsValue) (engine : Engine)
    (s : State) (hobj : opts.IsObject = true) :
    OpenSession b (opts :: rest) engine s
      = if b.sdk = true then OpenSessionSdk (decodeOptions b.co opts) engine s
        else OpenSessionStub (decodeOptions b.co opts) s := by
  simp [OpenSession, hobj]

theorem channelAddRecord_remote (ev : ChannelAdd) (st : HandleState) (desc : RtpDesc)
    (remote : Media) (hsucc : ev.success = true) (hdesc : ev.rtpDesc = some desc)
    (hrem : desc.remote = some remote) (hip : remote.ip ≠ "") (hport : remote.port ≠ 0)
    (hpt : st.ptime = 0) :
    (channelAddRecord ev st).rip = remote.ip
    ∧ (channelAddRecord ev st).rport = remote.port
    ∧ (channelAddRecord ev st).ptime = if remote.ptime = 0 then 20 else remote.ptime := by
  unfold channelAddRecord defaultPtime takeLocal takeRemote
  simp only [hsucc, hdesc, hrem, if_true]
  by_cases hp : remote.ptime = 0
  · cases desc.local_ <;> simp [hip, hport, hp, hpt]
  · cases desc.local_ <;> simp [hip, hport, hp]

/-- C5, as the code has it: in the SDK build, when the handle about to be
allocated is not already a key of the registry, and the engine reports channel-add success for the new handle before the
wait ends (any callbacks before and after it are for other handles) with a
remote descriptor whose address is non-empty and whose port is non-zero, then
`openSession` returns that address and port, the remote ptime (20 when it is
0), and the payload type derived from the codec (0 for "PCMU"). -/
theorem C5_negotiated_result (b : Build) (opts : JsValue) (rest : List JsValue)
    (engine : Engine) (s : State) (before after : List ChannelAdd) (ev : ChannelAdd)
    (desc : RtpDesc) (remote : Media)
    (hsdk : b.sdk = true) (hobj : opts.IsObject = true)
    (hfresh : s.g_handles.find s.g_nextHandle = none)
    (hcb : engine.callbacks = before ++ ev :: after)
    (hbefore : ∀ e ∈ before, e.ctx ≠ some s.g_nextHandle)
    (hafter : ∀ e ∈ after, e.ctx ≠ some s.g_nextHandle)
    (hctx : ev.ctx = some s.g_nextHandle) (hsucc : ev.success = true)
    (hdesc : ev.rtpDesc = some desc) (hrem : desc.remote = some remote)
    (hip : remote.ip ≠ "") (hport : remote.port ≠ 0) :
    (OpenSession b (opts :: rest) engine s).ret
      = Ret.session
          { remoteIp := remote.ip,
            remotePort := remote.port,
            payloadType := if b.co.ToString (opts.Get "codec") = "PCMU" then 0 else 96,
            handle := s.g_nextHandle,
            ptimeMs := if remote.ptime = 0 then 20 else remote.ptime,
            localPort := b.co.ToUint32 (opts.Get "rtpPortMin") } := by
  obtain ⟨st0, hst0, -, -, hpt0, -⟩ := OpenSessionSetup_find engine s hfresh
  have h1 := wait_find_other before (OpenSessionSetup engine s).1 s.g_nextHandle hbefore
  rw [hst0] at h1
  have h2 := on_channel_add_find_same ev _ s.g_nextHandle st0 hctx h1
  have h3 := wait_find_other after
    (on_channel_add ev (before.foldl (fun acc ev => on_channel_add ev acc)
      (OpenSessionSetup engine s).1)) s.g_nextHandle hafter
  rw [h2] at h3
  obtain ⟨hr1, hr2, hr3⟩ :=
    channelAddRecord_remote ev st0 desc remote hsucc hdesc hrem hip hport hpt0
  rw [OpenSession_object b opts rest engine s hobj]
  simp only [hsdk, if_true, OpenSessionSdk, hcb, List.foldl_append, List.foldl_cons]
  rw [OpenSessionFinish_result _ _ _ _ _ h3, hr1, hr2, hr3]
  by_cases hp : remote.ptime = 0
  · simp [hip, hport, hp, payloadTypeOf, decodeOptions]
  · simp [hip, hport, hp, payloadTypeOf, decodeOptions]

/-- C5 on the scenario of the specification: codec PCMU, remote `10.0.0.5:6000`
with ptime 20 gives remoteIp `10.0.0.5`, remotePort 6000, payloadType 0,
ptimeMs 20. -/
theorem C5_negotiated_result_witness :
    (OpenSession sdkBuild [scenarioConfig] scenarioEngine State.init).ret
      = Ret.session
          { remoteIp := "10.0.0.5", remotePort := 6000, payloadType := 0, handle := 1,
            ptimeMs := 20, localPort := 10000 } :=
  (C5_negotiated_result sdkBuild scenarioConfig [] scenarioEngine State.init [] []
    { ctx := some 1, channel := true, success := true,
      rtpDesc := some { remote := some { ip := "10.0.0.5", port := 6000, ptime := 20 },
                        local_ := none } }
    { remote := some { ip := "10.0.0.5", port := 6000, ptime := 20 }, local_ := none }
    { ip := "10.0.0.5", port := 6000, ptime := 20 }
    rfl rfl rfl rfl (by simp) (by simp) rfl rfl rfl rfl (by decide) (by decide)).trans
    (by decide)

theorem OpenSession_default_of_quiet (b : Build) (opts : JsValue) (rest : List JsValue)
    (engine : Engine) (s : State) (hobj : opts.IsObject = true)
    (hquiet : b.sdk = true →
      s.g_handles.find s.g_nextHandle = none
      ∧ ∀ e ∈ engine.callbacks, e.ctx ≠ some s.g_nextHandle) :
    (OpenSession b (opts :: rest) engine s).ret
      = Ret.session
          { remoteIp := "127.0.0.1",
            remotePort := 5004,
            payloadType := if b.co.ToString (opts.Get "codec") = "PCMU" then 0 else 96,
            handle := s.g_nextHandle,
            ptimeMs := 20,
            localPort := b.co.ToUint32 (opts.Get "rtpPortMin") } := by
  rw [OpenSession_object b opts rest engine s hobj]
  by_cases hsdk : b.sdk = true
  · obtain ⟨hfresh, hne⟩ := hquiet hsdk
    obtain ⟨st0, hst0, hip0, hport0, hpt0, -⟩ := OpenSessionSetup_find engine s hfresh
    have h1 := wait_find_other engine.callbacks (OpenSessionSetup engine s).1 s.g_nextHandle hne
    rw [hst0] at h1
    simp only [hsdk, if_true, OpenSessionSdk]
    rw [OpenSessionFinish_result _ _ _ _ _ h1, hip0, hport0, hpt0]
    simp [payloadTypeOf, decodeOptions]
  · simp [hsdk, OpenSessionStub, payloadTypeOf, decodeOptions]

/-- C6, as the code has it: when the engine does not report channel-add
completion for the new handle before the wait ends (callbacks, if any, are for
other handles) and the handle about to be allocated is not already a key of the
registry, `openSession` succeeds with remoteIp "127.0.0.1", remotePort 5004,
ptimeMs 20 and payload type 0 for codec "PCMU" and 96 for any other codec. The
stub build returns these values in every state. -/
theorem C6_default_result (b : Build) (opts : JsValue) (rest : List JsValue)
    (engine : Engine) (s : State) (hobj : opts.IsObject = true)
    (hquiet : b.sdk = true →
      s.g_handles.find s.g_nextHandle = none
      ∧ ∀ e ∈ engine.callbacks, e.ctx ≠ some s.g_nextHandle) :
    (OpenSession b (opts :: rest) engine s).ret
      = Ret.session
          { remoteIp := "127.0.0.1",
            remotePort := 5004,
            payloadType := if b.co.ToString (opts.Get "codec") = "PCMU" then 0 else 96,
            handle := s.g_nextHandle,
            ptimeMs := 20,
            localPort := b.co.ToUint32 (opts.Get "rtpPortMin") } :=
  OpenSession_default_of_quiet b opts rest engine s hobj hquiet

/-- C6 on the scenario of the specification: the engine never reports
completion; the SDK build returns `127.0.0.1:5004`, payloadType 0, ptimeMs 20. -/
theorem C6_default_result_witness :
    (OpenSession sdkBuild [scenarioConfig] silentEngine State.init).ret
      = Ret.session
          { remoteIp := "127.0.0.1", remotePort := 5004, payloadType := 0, handle := 1,
            ptimeMs := 20, localPort := 10000 } :=
  (C6_default_result sdkBuild scenarioConfig [] silentEngine State.init rfl
    (fun _ => ⟨rfl, by simp [silentEngine]⟩)).trans (by decide)

/-! ## Engine start-up failure and malformed options -/

theorem OpenSessionSetup_effects_failed (engine : Engine) (s : State)
    (hfail : (engine.dirLayoutCreate && engine.clientCreate && engine.applicationCreate) = false) :
    (OpenSessionSetup engine s).2.2
      = (if s.g_aprInitCount = 0 then [Effect.aprInit] else [])
        ++ (if (engine.dirLayoutCreate && engine.clientCreate) = true then [Effect.clientStart]
            else []) := by
  unfold OpenSessionSetup SdkInitIfNeeded
  simp [hfail]

theorem has_persists (b : Build) (later : List Action) (s : State) (k : Nat)
    (hk : s.g_handles.has k = true)
    (hopen : ∀ t ∈ (run b s later).2, t.closed ≠ some k) :
    (run b s later).1.g_handles.has k = true := by
  rw [run_has, live_fold_iff]
  exact Or.inr ⟨hk, hopen⟩

/-- C7, as the code has it: in the SDK build, when the directory layout, the
client or the application cannot be created, `openSession` does not fail. No
engine session is created and no channel-add request is sent (the only effects
are `apr_initialize` on first use and the start of a client that was created),
yet the call returns a session result for the newly allocated handle. The
result carries the default parameters when that handle was not already a key
and no `on_channel_add` for it runs during the wait. The record of the handle
is in the registry when the call returns and stays there through all later
actions until `closeSession` is passed that handle. -/
theorem C7_engine_failure_degrades (b : Build) (opts : JsValue) (rest : List JsValue)
    (engine : Engine) (s : State) (hsdk : b.sdk = true) (hobj : opts.IsObject = true)
    (hfail : (engine.dirLayoutCreate && engine.clientCreate && engine.applicationCreate) = false) :
    (∃ r, (OpenSession b (opts :: rest) engine s).ret = Ret.session r
        ∧ r.handle = s.g_nextHandle)
    ∧ ((OpenSession b (opts :: rest) engine s).state.g_handles.find s.g_nextHandle).isSome
        = true
    ∧ (OpenSession b (opts :: rest) engine s).effects
        = (if s.g_aprInitCount = 0 then [Effect.aprInit] else [])
          ++ (if (engine.dirLayoutCreate && engine.clientCreate) = true then [Effect.clientStart]
              else [])
    ∧ (s.g_handles.find s.g_nextHandle = none →
        (∀ e ∈ engine.callbacks, e.ctx ≠ some s.g_nextHandle) →
        (OpenSession b (opts :: rest) engine s).ret
          = Ret.session
              { remoteIp := "127.0.0.1",
                remotePort := 5004,
                payloadType := if b.co.ToString (opts.Get "codec") = "PCMU" then 0 else 96,
                handle := s.g_nextHandle,
                ptimeMs := 20,
                localPort := b.co.ToUint32 (opts.Get "rtpPortMin") })
    ∧ (∀ later : List Action,
        (∀ t ∈ (run b (OpenSession b (opts :: rest) engine s).state later).2,
          t.closed ≠ some s.g_nextHandle) →
        ((run b (OpenSession b (opts :: rest) engine s).state later).1.g_handles.find
          s.g_nextHandle).isSome = true) := by
  have hok : malformedOpen (opts :: rest) = false := by simp [malformedOpen, hobj]
  obtain ⟨r, hr, hh, -, hk⟩ := OpenSession_wellformed b (opts :: rest) engine s hok
  have hpresent : (OpenSession b (opts :: rest) engine s).state.g_handles.has s.g_nextHandle
      = true := by
    rw [hk s.g_nextHandle]
    simp
  refine ⟨⟨r, hr, hh⟩, hpresent, ?_, ?_, ?_⟩
  · rw [OpenSession_object b opts rest engine s hobj]
    simp only [hsdk, if_true, OpenSessionSdk]
    exact OpenSessionSetup_effects_failed engine s hfail
  · intro hfresh hne
    exact OpenSession_default_of_quiet b opts rest engine s hobj (fun _ => ⟨hfresh, hne⟩)
  · intro later hopen
    exact has_persists b later _ s.g_nextHandle hpresent hopen

/-- C7 on the scenario configuration with an engine whose directory layout is
null: the call returns the defaults for handle 1, and the record of handle 1 is
still there after a subscribe and the close of another handle. -/
theorem C7_engine_failure_degrades_witness :
    (OpenSession sdkBuild [scenarioConfig] failingEngine State.init).effects = [Effect.aprInit]
    ∧ (OpenSession sdkBuild [scenarioConfig] failingEngine State.init).ret
        = Ret.session
            { remoteIp := "127.0.0.1", remotePort := 5004, payloadType := 0, handle := 1,
              ptimeMs := 20, localPort := 10000 }
    ∧ ((run sdkBuild (OpenSession sdkBuild [scenarioConfig] failingEngine State.init).state
          [Action.onEvent [JsValue.number 1, JsValue.function 0],
           Action.closeSession [JsValue.number 2]]).1.g_handles.find 1).isSome = true :=
  ⟨(C7_engine_failure_degrades sdkBuild scenarioConfig [] failingEngine State.init
      rfl rfl rfl).2.2.1,
   ((C7_engine_failure_degrades sdkBuild scenarioConfig [] failingEngine State.init
      rfl rfl rfl).2.2.2.1 rfl (by simp [failingEngine])).trans (by decide),
   (C7_engine_failure_degrades sdkBuild scenarioConfig [] failingEngine State.init
      rfl rfl rfl).2.2.2.2 _ (by decide)⟩

/-- C7 fails as stated: with a null directory layout `openSession` returns the
default parameters with handle 1, and the record of handle 1 stays in the
registry. -/
theorem C7_counterexample :
    OpenSession sdkBuild [scenarioConfig] failingEngine State.init
      = { state := { g_handles := [(1, { running := true })], g_nextHandle := 2,
                     g_aprInitCount := 1 },
          ret := Ret.session
            { remoteIp := "127.0.0.1", remotePort := 5004, payloadType := 0, handle := 1,
              ptimeMs := 20, localPort := 10000 },
          effects := [Effect.aprInit] } := by
  decide

theorem delivery_absent (b : Build) (a : Action) (s : State) (h : Nat)
    (habs : s.g_handles.find h = none) (hd : a.deliversTo h = true) :
    (step b a s).effects = [] := by
  cases a with
  | terminateEvent ctx =>
    cases ctx with
    | none => simp [Action.deliversTo] at hd
    | some k =>
      simp only [Action.deliversTo, beq_iff_eq] at hd
      subst hd
      simp [step, on_terminate_event, habs]
  | workerWake k =>
    simp only [Action.deliversTo, beq_iff_eq] at hd
    subst hd
    simp [step, workerBody, habs]
  | openSession args engine => simp [Action.deliversTo] at hd
  | onEvent args => simp [Action.deliversTo] at hd
  | closeSession args => simp [Action.deliversTo] at hd
  | channelAdd ev => simp [Action.deliversTo] at hd

theorem not_mem_returned_cons (t : Step) (hist : List Step) (h : Nat)
    (hnot : h ∉ returnedHandles (t :: hist)) :
    t.returned ≠ some h ∧ h ∉ returnedHandles hist := by
  rw [returnedHandles_cons] at hnot
  cases ht : t.returned with
  | none =>
    rw [ht] at hnot
    exact ⟨by simp, hnot⟩
  | some k =>
    rw [ht] at hnot
    simp only [List.mem_cons, not_or] at hnot
    exact ⟨fun he => hnot.1 (Option.some.inj he).symm, hnot.2⟩

theorem liveStep_false (h : Nat) (t : Step) (hr : t.returned ≠ some h) :
    liveStep h false t = false := by
  unfold liveStep
  by_cases hc : t.closed = some h <;> simp [hr, hc]

theorem no_delivery_run (b : Build) (later : List Action) (s : State) (h : Nat)
    (habs : s.g_handles.has h = false)
    (hnot : h ∉ returnedHandles (run b s later).2) :
    (run b s later).1.g_handles.has h = false
    ∧ ∀ t ∈ (run b s later).2, t.action.deliversTo h = true → t.effects = [] := by
  induction later generalizing s with
  | nil => simp [run, habs]
  | cons a rest ih =>
    have hfind : s.g_handles.find h = none := by
      unfold Registry.has at habs
      cases hf : s.g_handles.find h with
      | none => rfl
      | some st => simp [hf] at habs
    rw [run_cons] at hnot ⊢
    by_cases ht : (step b a s).ret = Ret.terminate
    · simp only [ht, if_true] at hnot ⊢
      obtain ⟨hr, -⟩ := not_mem_returned_cons _ _ h hnot
      refine ⟨?_, ?_⟩
      · rw [step_has, habs, liveStep_false h _ hr]
      · intro t hmem hd
        rw [List.mem_singleton] at hmem
        subst hmem
        exact delivery_absent b a s h hfind hd
    · simp only [ht, if_false] at hnot ⊢
      obtain ⟨hr, hrest⟩ := not_mem_returned_cons _ _ h hnot
      have hnext : (step b a s).state.g_handles.has h = false := by
        rw [step_has, habs, liveStep_false h _ hr]
      obtain ⟨ih1, ih2⟩ := ih (step b a s).state hnext hrest
      refine ⟨ih1, ?_⟩
      intro t hmem hd
      rcases List.mem_cons.mp hmem with he | he
      · subst he
        exact delivery_absent b a s h hfind hd
      · exact ih2 t he hd

/-- C9, as the code has it: after `closeSession(n)` has completed, in the state it leaves and in
every state reached by later actions that do not hand the same handle out
again, the handle has no record, and a delivery attempt for it (the terminate
callback whose correlator carries the handle, or the worker of the handle
waking up) invokes the consumer zero times. This holds for the attempts made
along the way as well. -/
theorem C9_no_delivery_after_close (b : Build) (s : State) (n : Nat) (rest : List JsValue)
    (later : List Action)
    (hnot : n % UINT32 ∉
      returnedHandles (run b (CloseSession b (JsValue.number n :: rest) s).state later).2) :
    (run b (CloseSession b (JsValue.number n :: rest) s).state later).1.g_handles.find (n % UINT32)
        = none
    ∧ on_terminate_event (some (n % UINT32))
        (run b (CloseSession b (JsValue.number n :: rest) s).state later).1 = []
    ∧ workerBody (n % UINT32)
        (run b (CloseSession b (JsValue.number n :: rest) s).state later).1 = []
    ∧ ∀ t ∈ (run b (CloseSession b (JsValue.number n :: rest) s).state later).2,
        t.action.deliversTo (n % UINT32) = true → t.effects = [] := by
  have hnone := CloseSession_find_none b (JsValue.number n) rest s rfl
  have habs : (CloseSession b (JsValue.number n :: rest) s).state.g_handles.has (n % UINT32)
      = false := by
    unfold Registry.has
    rw [show (JsValue.number n).Uint32Value = n % UINT32 from rfl] at hnone
    rw [hnone]
    rfl
  obtain ⟨h1, h2⟩ := no_delivery_run b later _ (n % UINT32) habs hnot
  have hfind : (run b (CloseSession b (JsValue.number n :: rest) s).state later).1.g_handles.find
      (n % UINT32) = none := by
    unfold Registry.has at h1
    cases hf : (run b (CloseSession b (JsValue.number n :: rest) s).state later).1.g_handles.find
        (n % UINT32) with
    | none => rfl
    | some st => simp [hf] at h1
  refine ⟨hfind, ?_, ?_, h2⟩
  · simp [on_terminate_event, hfind]
  · simp [workerBody, hfind]

/-- C9 on a subscribed handle 1: it is closed, then the terminate callback and
the worker fire for it, another session is opened and the callbacks fire
again. -/
theorem C9_no_delivery_after_close_witness :
    (run sdkBuild (CloseSession sdkBuild [JsValue.number 1] subscribedState).state
        [Action.terminateEvent (some 1), Action.workerWake 1,
         Action.openSession [scenarioConfig] silentEngine,
         Action.terminateEvent (some 1), Action.workerWake 1]).1.g_handles.find (1 % UINT32)
        = none
    ∧ on_terminate_event (some (1 % UINT32))
        (run sdkBuild (CloseSession sdkBuild [JsValue.number 1] subscribedState).state
          [Action.terminateEvent (some 1), Action.workerWake 1,
           Action.openSession [scenarioConfig] silentEngine,
           Action.terminateEvent (some 1), Action.workerWake 1]).1 = []
    ∧ workerBody (1 % UINT32)
        (run sdkBuild (CloseSession sdkBuild [JsValue.number 1] subscribedState).state
          [Action.terminateEvent (some 1), Action.workerWake 1,
           Action.openSession [scenarioConfig] silentEngine,
           Action.terminateEvent (some 1), Action.workerWake 1]).1 = []
    ∧ ∀ t ∈ (run sdkBuild (CloseSession sdkBuild [JsValue.number 1] subscribedState).state
          [Action.terminateEvent (some 1), Action.workerWake 1,
           Action.openSession [scenarioConfig] silentEngine,
           Action.terminateEvent (some 1), Action.workerWake 1]).2,
        t.action.deliversTo (1 % UINT32) = true → t.effects = [] :=
  C9_no_delivery_after_close sdkBuild subscribedState 1 [] _ (by decide)

/-! ## Subscribing twice -/

/-- C10 at its failing input (open, subscribe twice to handle 1, close): the
second `onEvent` ends the process with `std::terminate`, the close is never
run, and of the two sinks and two threads that were created none is released
or joined. -/
theorem C10_double_subscribe_terminates :
    (run stubBuild State.init doubleSubscribe).2.map (fun t => t.ret)
      = [Ret.session { remoteIp := "127.0.0.1", remotePort := 5004, payloadType := 96,
                       handle := 1, ptimeMs := 20, localPort := 0 },
         Ret.undefined, Ret.terminate]
    ∧ effectsOf (run stubBuild State.init doubleSubscribe).2
      = [Effect.tsfnNew { id := 0, callback := 0 }, Effect.threadStart 0 1,
         Effect.tsfnNew { id := 1, callback := 1 }, Effect.threadStart 1 1] := by
  decide

/-! ## Once around the counter -/

theorem Registry.erase_set (m : Registry) (h : Nat) (v : HandleState) :
    Registry.erase (Registry.set m h v) h = Registry.erase m h := by
  induction m with
  | nil => simp [Registry.set, Registry.erase]
  | cons e m ih =>
    obtain ⟨k, w⟩ := e
    by_cases hk : k = h
    · simp [Registry.set, Registry.erase, hk]
    · simp [Registry.set, Registry.erase, hk, ih]

theorem Registry.set_set (m : Registry) (h : Nat) (v w : HandleState) :
    Registry.set (Registry.set m h v) h w = Registry.set m h w := by
  induction m with
  | nil => simp [Registry.set]
  | cons e m ih =>
    obtain ⟨k, u⟩ := e
    by_cases hk : k = h
    · simp [Registry.set, hk]
    · simp [Registry.set, hk, ih]

theorem Registry.erase_absent (m : Registry) (h : Nat) (habs : Registry.find m h = none) :
    Registry.erase m h = m := by
  induction m with
  | nil => rfl
  | cons e m ih =>
    obtain ⟨k, w⟩ := e
    by_cases hk : k = h
    · simp [Registry.find, hk] at habs
    · simp only [Registry.find, hk, if_false] at habs
      simp [Registry.erase, hk, ih habs]

theorem wrapInt32_small (x : Int) (h0 : 0 ≤ x) (h1 : x < 2147483648) : wrapInt32 x = x := by
  unfold wrapInt32
  norm_num
  omega

theorem OpenSession_idle_state (b : Build) (s : State)
    (hfresh : s.g_handles.find s.g_nextHandle = none)
    (h0 : 0 ≤ s.g_aprInitCount) (h1 : s.g_aprInitCount + 1 < 2147483648) :
    (OpenSession b [JsValue.object []] idleEngine s).ret ≠ Ret.terminate
    ∧ (OpenSession b [JsValue.object []] idleEngine s).state
      = { s with g_handles := s.g_handles.set s.g_nextHandle { running := true },
                 g_nextHandle := (s.g_nextHandle + 1) % UINT32,
                 g_aprInitCount := if b.sdk = true then s.g_aprInitCount + 1
                                   else s.g_aprInitCount } := by
  obtain ⟨r, hr, -, -, -⟩ := OpenSession_wellformed b [JsValue.object []] idleEngine s rfl
  refine ⟨by simp [hr], ?_⟩
  rw [OpenSession_object b (JsValue.object []) [] idleEngine s rfl]
  by_cases hb : b.sdk = true
  · simp only [hb, if_true, OpenSessionSdk, OpenSessionSetup, OpenSessionFinish, idleEngine,
      SdkInitIfNeeded, Registry.index, hfresh, Option.getD_none, List.foldl_nil,
      Bool.false_and, Bool.false_eq_true, if_false, Registry.find_set_same,
      wrapInt32_small _ (by omega) h1, Registry.set_set]
  · simp [hb, OpenSessionStub, Registry.index, hfresh]

theorem CloseSession_fresh_record (b : Build) (c : Nat) (s : State) (m : Registry)
    (hm : s.g_handles = Registry.set m (c % UINT32) { running := true })
    (habs : Registry.find m (c % UINT32) = none)
    (h0 : b.sdk = true → 0 < s.g_aprInitCount) (h1 : s.g_aprInitCount < 2147483648) :
    (CloseSession b [JsValue.number c] s).ret ≠ Ret.terminate
    ∧ (CloseSession b [JsValue.number c] s).state
      = { s with g_handles := m,
                 g_aprInitCount := if b.sdk = true then s.g_aprInitCount - 1
                                   else s.g_aprInitCount } := by
  refine ⟨CloseSession_not_terminate b _ s, ?_⟩
  have hf : s.g_handles.find (c % UINT32) = some { running := true } := by
    rw [hm, Registry.find_set_same]
  have he : s.g_handles.erase (c % UINT32) = m := by
    rw [hm, Registry.erase_set, Registry.erase_absent m _ habs]
  by_cases hb : b.sdk = true
  · have h0p := h0 hb
    simp only [CloseSession, JsValue.IsNumber, JsValue.Uint32Value, Bool.not_true,
      Bool.false_eq_true, if_false, hf, he, closeCleanup, hb, if_true, SdkTerminateIfNeeded, h0p,
      wrapInt32_small _ (show 0 ≤ s.g_aprInitCount - 1 by omega)
        (show s.g_aprInitCount - 1 < 2147483648 by omega)]
  · simp [CloseSession, JsValue.IsNumber, JsValue.Uint32Value, hf, he, closeCleanup, hb]

theorem round_state (b : Build) (c : Nat) (s : State) (tail : List Action)
    (hc : c % UINT32 = s.g_nextHandle)
    (hfresh : s.g_handles.find s.g_nextHandle = none)
    (h0 : 0 ≤ s.g_aprInitCount) (h1 : s.g_aprInitCount + 1 < 2147483648) :
    (run b s (Action.openSession [JsValue.object []] idleEngine
        :: Action.closeSession [JsValue.number c] :: tail)).1
      = (run b { s with g_nextHandle := (s.g_nextHandle + 1) % UINT32 } tail).1 := by
  obtain ⟨hnt, hst⟩ := OpenSession_idle_state b s hfresh h0 h1
  have hclose := CloseSession_fresh_record b c
    (OpenSession b [JsValue.object []] idleEngine s).state s.g_handles
    (by rw [hst, hc]) (by rw [hc]; exact hfresh)
    (by intro hb; rw [hst]; simp only [hb, if_true]; omega)
    (by rw [hst]; by_cases hb : b.sdk = true <;> simp only [hb, if_true, if_false] <;> omega)
  obtain ⟨hnt2, hst2⟩ := hclose
  have hfin : (CloseSession b [JsValue.number c]
      (OpenSession b [JsValue.object []] idleEngine s).state).state
      = { s with g_nextHandle := (s.g_nextHandle + 1) % UINT32 } := by
    rw [hst2, hst]
    by_cases hb : b.sdk = true <;> simp [hb]
  rw [run_cons]
  simp only [step, hnt, if_false]
  rw [run_cons]
  simp only [step, hnt2, if_false, hfin]

theorem wrapThen_state (b : Build) (k c : Nat) (s : State) (tail : List Action)
    (hc : c % UINT32 = s.g_nextHandle)
    (hfresh : ∀ i < k, s.g_handles.find ((c + i) % UINT32) = none)
    (h0 : 0 ≤ s.g_aprInitCount) (h1 : s.g_aprInitCount + 1 < 2147483648) :
    (run b s (wrapThen k c tail)).1
      = (run b { s with g_nextHandle := (c + k) % UINT32 } tail).1 := by
  induction k generalizing c s with
  | zero =>
    have : ({ s with g_nextHandle := (c + 0) % UINT32 } : State) = s := by
      rw [Nat.add_zero, hc]
    rw [this]
    rfl
  | succ k ih =>
    have hf0 : s.g_handles.find s.g_nextHandle = none := by
      have := hfresh 0 (Nat.succ_pos k)
      rwa [Nat.add_zero, hc] at this
    simp only [wrapThen]
    rw [round_state b c s _ hc hf0 h0 h1]
    have hc2 : (c + 1) % UINT32
        = ({ s with g_nextHandle := (s.g_nextHandle + 1) % UINT32 } : State).g_nextHandle := by
      show (c + 1) % UINT32 = (s.g_nextHandle + 1) % UINT32
      rw [← hc, Nat.mod_add_mod]
    rw [ih (c + 1) { s with g_nextHandle := (s.g_nextHandle + 1) % UINT32 } hc2
      (fun i hi => by
        have := hfresh (i + 1) (Nat.succ_lt_succ hi)
        rw [show c + 1 + i = c + (i + 1) by omega]
        exact this)
      h0 h1]
    congr 2
    show ({ s with g_nextHandle := (c + 1 + k) % UINT32 } : State)
      = { s with g_nextHandle := (c + (k + 1)) % UINT32 }
    rw [show c + 1 + k = c + (k + 1) by omega]

/-! ## Reused handles -/

theorem run_first (b : Build) (a : Action) (s : State) (rest : List Action)
    (hnt : (step b a s).ret ≠ Ret.terminate) :
    (run b s (a :: rest)).1 = (run b (step b a s).state rest).1 := by
  rw [run_cons, if_neg hnt]

theorem stale_state_reached :
    (run sdkBuild State.init
        (Action.openSession [scenarioConfig] firstEngine :: wrapThen 4294967295 2 [])).1
      = { firstOpened with g_nextHandle := 1 } := by
  have hstate : (step sdkBuild (Action.openSession [scenarioConfig] firstEngine) State.init).state
      = firstOpened := by
    decide
  have hfresh : ∀ i < 4294967295, firstOpened.g_handles.find ((2 + i) % UINT32) = none := by
    intro i hi
    have hne : ¬ 1 = (2 + i) % UINT32 := by
      unfold UINT32
      omega
    simp [firstOpened, Registry.find, hne]
  rw [run_first sdkBuild _ State.init _ (by decide), hstate,
    wrapThen_state sdkBuild 4294967295 2 firstOpened [] (by decide) hfresh (by decide) (by decide),
    run]
  decide

/-- C5 fails as stated. From the initial state of the SDK build, open a session
(handle 1, negotiated ptime 30) and leave it open, then open and close
`2 ^ 32 - 1` further sessions: the counter is back at 1. The next `openSession`
reuses the record of handle 1; when the engine reports success with remote
`10.0.0.7:7000` and ptime 0, the call returns ptimeMs 30, not 20. -/
theorem C5_counterexample :
    (OpenSession sdkBuild [scenarioConfig] zeroPtimeEngine
        (run sdkBuild State.init
          (Action.openSession [scenarioConfig] firstEngine :: wrapThen 4294967295 2 [])).1).ret
      = Ret.session
          { remoteIp := "10.0.0.7", remotePort := 7000, payloadType := 0, handle := 1,
            ptimeMs := 30, localPort := 10000 } := by
  rw [stale_state_reached]
  decide

/-- C6 fails as stated. In the same state (handle 1 still open with negotiated
`10.0.0.5:6000`, ptime 30, and the counter back at 1 after `2 ^ 32 - 1` further
sessions), `openSession` against an engine that never reports completion
returns the values of the old record, not the defaults. -/
theorem C6_counterexample :
    (OpenSession sdkBuild [scenarioConfig] silentEngine
        (run sdkBuild State.init
          (Action.openSession [scenarioConfig] firstEngine :: wrapThen 4294967295 2 [])).1).ret
      = Ret.session
          { remoteIp := "10.0.0.5", remotePort := 6000, payloadType := 0, handle := 1,
            ptimeMs := 30, localPort := 10000 } := by
  rw [stale_state_reached]
  decide

/-- C9 fails as stated. Handle 1 is opened and closed; after `2 ^ 32 - 1` further
sessions have been opened and closed the counter is back at 1, `openSession`
hands out 1 again and `onEvent(1, f)` subscribes callback 7. The worker of
handle 1 waking up, a delivery attempt for handle 1 after `closeSession(1)`
completed, finds a record and invokes the consumer once. -/
theorem C9_counterexample :
    workerBody 1
        (run stubBuild
          (CloseSession stubBuild [JsValue.number 1]
            (OpenSession stubBuild [JsValue.object []] idleEngine State.init).state).state
          (wrapThen 4294967295 2
            [Action.openSession [JsValue.object []] idleEngine,
             Action.onEvent [JsValue.number 1, JsValue.function 7]])).1
      = [Effect.consumerCall { id := 0, callback := 7 } (Event.result "demo result (native)")] := by
  have hclosed : (CloseSession stubBuild [JsValue.number 1]
      (OpenSession stubBuild [JsValue.object []] idleEngine State.init).state).state
      = { g_handles := [], g_nextHandle := 2 } := by
    decide
  rw [hclosed, wrapThen_state stubBuild 4294967295 2 { g_handles := [], g_nextHandle := 2 } _
    (by decide) (fun i _ => rfl) (by decide) (by decide)]
  decide

end AudioHook
